import Mathlib

/-!
Verification development for the synthetic distributed-trace generator of the
heatmap-panel repository (`trace-generator/main.go`).

Shallow embedding conventions:
* Time is measured in integer nanoseconds (`ℤ`), matching Go `time.Duration`
  and `time.Time` arithmetic.  `time.Millisecond = 1000000` ns.
* Go `float64` arithmetic on durations is modelled by exact rationals (`ℚ`);
  the final conversion `time.Duration(d * float64(time.Millisecond))`
  truncates toward zero, which on the (always positive) operands here equals
  `Int.floor`.
* Randomness is made explicit: every call of `rand.NormFloat64`,
  `rand.Float64`, `rand.Intn` and `rand.Int63n` that a code path consumes is a
  parameter of the embedded function.  `rand.Float64` values range over
  `[0, 1)`, `jitter()` values over `[0, 2000000)` ns, `rand.Intn n` over
  `[0, n)`; normal draws are unconstrained rationals.
* A span tree is reified as a rose tree of `SpanData`; calling
  `tracer.Start`/`span.End` with explicit timestamps becomes constructing the
  node with its `start`/`stop` fields.
-/

namespace TraceGen

/-- Attribute values (mirrors otel `attribute.String` / `attribute.Int`). -/
inductive AttrVal where
  | str (s : String)
  | int (n : ℤ)
deriving DecidableEq, Repr

/-- Span status, as set via `span.SetStatus` (spans that never call
`SetStatus` stay `unset`). -/
inductive SpanStatus where
  | unset
  | ok
  | error (msg : String)
deriving DecidableEq, Repr

/-- otel span kinds used by the generator. -/
inductive SpanKind where
  | server
  | internal
  | client
deriving DecidableEq, Repr

/-- One emitted span: name, the tracer (service) it was started on, kind,
start and end timestamps in ns, status, and its attribute list. -/
structure SpanData where
  name : String
  service : String
  kind : SpanKind
  start : ℤ
  stop : ℤ
  status : SpanStatus
  attrs : List (String × AttrVal)
deriving DecidableEq, Repr

/-- A span tree: the root span together with its child spans (children are
listed in emission order). -/
inductive SpanTree where
  | node (data : SpanData) (kids : List SpanTree)

def SpanTree.data : SpanTree → SpanData
  | .node s _ => s

def SpanTree.kids : SpanTree → List SpanTree
  | .node _ cs => cs

/-- All spans of a forest, in emission (preorder) order. -/
def spansAux : List SpanTree → List SpanData
  | [] => []
  | .node s cs :: ts => s :: (spansAux cs ++ spansAux ts)

/-- All spans of a tree. -/
def SpanTree.spans (t : SpanTree) : List SpanData := spansAux [t]

/-- All direct (parent, child) span pairs inside the forest `ts`, each root of
`ts` being additionally paired with the ambient parent `p`. -/
def directPairsAux (p : SpanData) : List SpanTree → List (SpanData × SpanData)
  | [] => []
  | .node c cs :: ts => (p, c) :: (directPairsAux c cs ++ directPairsAux p ts)

/-- All direct (parent, child) span pairs of a tree. -/
def SpanTree.directPairs : SpanTree → List (SpanData × SpanData)
  | .node s cs => directPairsAux s cs

def SpanData.attrKeys (s : SpanData) : List String := s.attrs.map (·.1)

def SpanData.attrValue (s : SpanData) (k : String) : Option AttrVal :=
  (s.attrs.find? (fun p => p.1 = k)).map (·.2)

def SpanStatus.isError : SpanStatus → Bool
  | .error _ => true
  | _ => false

/-- Wrap childless spans as tree leaves. -/
def leafNodes (l : List SpanData) : List SpanTree :=
  l.map (fun s => .node s [])

/-- Navigate to the subtree at a path of child indices. -/
def subtreeAt : SpanTree → List ℕ → Option SpanTree
  | t, [] => some t
  | .node _ cs, i :: p => match cs.get? i with
    | some c => subtreeAt c p
    | none => none

/-- The child spans (in emission order) of the node at `path`. -/
def childSpansAt (t : SpanTree) (path : List ℕ) : Option (List SpanData) :=
  (subtreeAt t path).map (fun u => u.kids.map SpanTree.data)

-- ── Weighted random helpers (main.go lines 50-80) ───────────────────

/-- Go `weightedChoice` struct. -/
structure weightedChoice where
  value : String
  weight : ℚ
deriving DecidableEq, Repr

/-- Total weight, as computed by the first loop of `pickWeighted`. -/
def totalWeight (choices : List weightedChoice) : ℚ :=
  choices.foldl (fun acc c => acc + c.weight) 0

/-- The subtraction loop of `pickWeighted`: subtract weights in list order,
return the first entry at which the running remainder is `≤ 0`. -/
def pickWeightedLoop : ℚ → List weightedChoice → Option String
  | _, [] => none
  | r, c :: cs => if r - c.weight ≤ 0 then some c.value else pickWeightedLoop (r - c.weight) cs

/-- Go `pickWeighted`: `u` is the `rand.Float64()` draw in `[0,1)`; the loop
draw is `r = u * total`; if the loop selects nothing the last entry is
returned (Go indexes `choices[len(choices)-1]`, modelled with `""` for the
impossible empty-list case where Go would panic). -/
def pickWeighted (choices : List weightedChoice) (u : ℚ) : String :=
  match pickWeightedLoop (u * totalWeight choices) choices with
  | some v => v
  | none => ((choices.getLast?).map (·.value)).getD ""

/-- Go `gaussianDuration(mean, stddev)` with the `rand.NormFloat64()` draw
made explicit: clamp `mean + noise*stddev` to at least 1 (ms), then convert
to `time.Duration` nanoseconds (truncation toward zero = floor, the operand
being positive). -/
def gaussianDuration (mean stddev noise : ℚ) : ℤ :=
  Int.floor ((if mean + noise * stddev < 1 then (1 : ℚ) else mean + noise * stddev) * 1000000)

/-- Go `jitter()` returns `rand.Int63n(int64(2*time.Millisecond))`, i.e. a
value in `[0, 2000000)` ns; `JitterOK` is that range constraint. -/
def JitterOK (j : ℤ) : Prop := 0 ≤ j ∧ j < 2000000

-- ── Attribute pools (main.go lines 84-128) ──────────────────────────

def routes : List weightedChoice :=
  [⟨"/api/users", 25⟩, ⟨"/api/orders", 15⟩, ⟨"/cart/checkout", 10⟩,
   ⟨"/api/search", 25⟩, ⟨"/api/products", 15⟩, ⟨"/api/auth", 10⟩]

-- ── Service mapping (main.go lines 142-166) ─────────────────────────

def routeToService (route : String) : String :=
  if route = "/api/orders" ∨ route = "/cart/checkout" then "order-service"
  else if route = "/api/users" ∨ route = "/api/auth" then "user-service"
  else if route = "/api/search" ∨ route = "/api/products" then "search-service"
  else "unknown-service"

def serviceToDBSystem (svc : String) : String :=
  if svc = "order-service" then "postgres"
  else if svc = "user-service" then "postgres"
  else if svc = "search-service" then "elasticsearch"
  else "none"

/-- The fixed roster of service names registered in `newServiceTracers`. -/
def serviceNames : List String :=
  ["api-gateway", "order-service", "user-service", "search-service",
   "payment-service", "notification-service"]

-- ── Scenario detection (main.go lines 223-278) ──────────────────────

/-- Go `scenario` enumeration. -/
inductive ScenarioKind where
  | scenarioNormal
  | scenarioSlowCheckout
  | scenarioIOSOrderErrors
  | scenarioRedisTimeoutAPAC
  | scenarioInitechSearch
  | scenarioAuthMemoryLeak
  | scenarioPaymentTimeout
  | scenarioUmbrellaCompliance
  | scenarioGlobexBatch
deriving DecidableEq, Repr

/-- Go `traceAttrs`. -/
structure TraceAttrs where
  route : String
  method : String
  region : String
  buildID : String
  platform : String
  featureFlag : String
  tenant : String
  uid : String
  pod : String
deriving DecidableEq, Repr

/-- Go `detectScenario`, with the single `rand.Float64()` gate draw of rule
S6 made the explicit parameter `u` (`u < 0.30` is the 30% probability gate). -/
def detectScenarioOf (a : TraceAttrs) (u : ℚ) : ScenarioKind :=
  let svc := routeToService a.route
  -- S6: Payment timeout — checkout + us-west-2, 30% probability gate
  if a.route = "/cart/checkout" ∧ a.region = "us-west-2" ∧ u < 3/10 then .scenarioPaymentTimeout
  -- S1: Slow checkout — feature flag + EU
  else if a.route = "/cart/checkout" ∧ a.featureFlag = "new-checkout-flow" ∧ a.region = "eu-west-1" then .scenarioSlowCheckout
  -- S2: iOS order errors — bad build
  else if a.route = "/api/orders" ∧ a.platform = "ios" ∧ a.buildID = "build-7a3" then .scenarioIOSOrderErrors
  -- S4: Initech search failure — tenant + dark-launch flag
  else if a.tenant = "tenant-initech" ∧ a.featureFlag = "dark-launch-search" ∧ a.route = "/api/search" then .scenarioInitechSearch
  -- S5: Auth memory leak — build + specific pods
  else if a.route = "/api/auth" ∧ a.buildID = "build-7a3" ∧ (a.pod = "pod-abc-7" ∨ a.pod = "pod-abc-8") then .scenarioAuthMemoryLeak
  -- S3: Redis timeout — APAC + user-service
  else if a.region = "ap-southeast-1" ∧ svc = "user-service" then .scenarioRedisTimeoutAPAC
  -- S8: Globex batch import — tenant + products + POST
  else if a.tenant = "tenant-globex" ∧ a.route = "/api/products" ∧ a.method = "POST" then .scenarioGlobexBatch
  -- S7: Umbrella compliance overhead — tenant + EU
  else if a.tenant = "tenant-umbrella" ∧ a.region = "eu-west-1" then .scenarioUmbrellaCompliance
  else .scenarioNormal

-- ── Status code helpers (main.go lines 282-292) ─────────────────────

/-- Go `pickNormalStatusCode` with the `rand.Float64()` draw explicit. -/
def pickNormalStatusCode (u : ℚ) : ℤ :=
  if u < 95/100 then 200
  else if u < 98/100 then 201
  else 404

-- ── Attribute construction (main.go lines 313-323, 855-896) ─────────

/-- The `commonAttrs` list built in `emitTrace` and placed on every root span. -/
def commonAttrs (a : TraceAttrs) : List (String × AttrVal) :=
  [("http.method", .str a.method),
   ("http.route", .str a.route),
   ("user.id", .str a.uid),
   ("app.tenant_id", .str a.tenant),
   ("host.region", .str a.region),
   ("app.build_id", .str a.buildID),
   ("app.platform", .str a.platform),
   ("app.feature_flag", .str a.featureFlag),
   ("k8s.pod.name", .str a.pod)]

/-- Root-span attributes: `append(common, ServiceName("api-gateway"),
Int("http.status_code", code))`. -/
def rootAttrs (a : TraceAttrs) (code : ℤ) : List (String × AttrVal) :=
  commonAttrs a ++ [("service.name", .str "api-gateway"), ("http.status_code", .int code)]

/-- Go `svcAttrs` (note: no `http.method`). -/
def svcAttrs (svc : String) (a : TraceAttrs) : List (String × AttrVal) :=
  [("service.name", .str svc),
   ("http.route", .str a.route),
   ("host.region", .str a.region),
   ("app.build_id", .str a.buildID),
   ("app.feature_flag", .str a.featureFlag),
   ("app.platform", .str a.platform),
   ("user.id", .str a.uid),
   ("app.tenant_id", .str a.tenant),
   ("k8s.pod.name", .str a.pod)]

/-- Attribute list of database/cache client spans. -/
def dbAttrs (system stmt svc region : String) : List (String × AttrVal) :=
  [("db.system", .str system),
   ("db.statement", .str stmt),
   ("service.name", .str svc),
   ("host.region", .str region)]

/-- Attribute list of `payment-service.charge` / `external.payment.process`
spans. -/
def paymentAttrs (region : String) : List (String × AttrVal) :=
  [("service.name", .str "payment-service"), ("host.region", .str region)]

/-- Go `strings.TrimPrefix(route, "/api/")`. -/
def trimApiRoute (r : String) : String :=
  if r.startsWith "/api/" then r.drop 5 else r

-- ── Per-builder random draw records ─────────────────────────────────

/-- Draws consumed by `emitSlowCheckout`, in source order: three normal draws
for root/svc/pay durations, the `svcStart` jitter `j1`, the initial cursor
jitter `j2`, the `rand.Intn(3)` addend `kq` of `nQueries`, per-query normal
draws `qN i` and statement ids `stmtId i`, the `payStart` jitter `j3`, the
`external` start jitter `j4` and its duration draw `extN`. -/
structure SlowDraws where
  rootN : ℚ
  svcN : ℚ
  payN : ℚ
  j1 : ℤ
  j2 : ℤ
  kq : ℕ
  qN : ℕ → ℚ
  stmtId : ℕ → ℤ
  j3 : ℤ
  extN : ℚ
  j4 : ℤ

def SlowDraws.Valid (d : SlowDraws) : Prop :=
  JitterOK d.j1 ∧ JitterOK d.j2 ∧ d.kq < 3 ∧ JitterOK d.j3 ∧ JitterOK d.j4

/-- Draws consumed by `emitIOSOrderErrors`. -/
structure IOSDraws where
  rootN : ℚ
  svcN : ℚ
  j1 : ℤ

def IOSDraws.Valid (d : IOSDraws) : Prop := JitterOK d.j1

/-- Draws consumed by `emitRedisTimeoutAPAC`. -/
structure RedisDraws where
  rootN : ℚ
  svcN : ℚ
  j1 : ℤ
  j2 : ℤ
  redisN : ℚ
  pgN : ℚ

def RedisDraws.Valid (d : RedisDraws) : Prop := JitterOK d.j1 ∧ JitterOK d.j2

/-- Draws consumed by `emitInitechSearch`. -/
structure InitechDraws where
  rootN : ℚ
  svcN : ℚ
  j1 : ℤ
  j2 : ℤ
  esN : ℚ

def InitechDraws.Valid (d : InitechDraws) : Prop := JitterOK d.j1 ∧ JitterOK d.j2

/-- Draws consumed by `emitAuthMemoryLeak`; `u503` is the 30% `rand.Float64`
gate for the intermittent 503. -/
structure AuthDraws where
  rootN : ℚ
  svcN : ℚ
  u503 : ℚ
  j1 : ℤ
  j2 : ℤ
  redisN : ℚ

def AuthDraws.Valid (d : AuthDraws) : Prop :=
  0 ≤ d.u503 ∧ d.u503 < 1 ∧ JitterOK d.j1 ∧ JitterOK d.j2

/-- Draws consumed by `emitPaymentTimeout`. -/
structure PayDraws where
  rootN : ℚ
  svcN : ℚ
  j1 : ℤ
  j2 : ℤ
  dbN : ℚ
  j3 : ℤ
  payN : ℚ
  j4 : ℤ

def PayDraws.Valid (d : PayDraws) : Prop :=
  JitterOK d.j1 ∧ JitterOK d.j2 ∧ JitterOK d.j3 ∧ JitterOK d.j4

/-- Draws consumed by `emitUmbrellaCompliance`; `uStatus` is the
`pickNormalStatusCode` draw, `leafN` the leaf duration draw. -/
structure UmbrellaDraws where
  overheadN : ℚ
  baseN : ℚ
  uStatus : ℚ
  j1 : ℤ
  j2 : ℤ
  j3 : ℤ
  leafN : ℚ

def UmbrellaDraws.Valid (d : UmbrellaDraws) : Prop :=
  0 ≤ d.uStatus ∧ d.uStatus < 1 ∧ JitterOK d.j1 ∧ JitterOK d.j2 ∧ JitterOK d.j3

/-- Draws consumed by `emitGlobexBatch`. -/
structure GlobexDraws where
  rootN : ℚ
  svcN : ℚ
  j1 : ℤ
  j2 : ℤ
  esN : ℚ

def GlobexDraws.Valid (d : GlobexDraws) : Prop := JitterOK d.j1 ∧ JitterOK d.j2

/-- Draws consumed by `emitNormalTrace` (branch-specific draws are unused when
the branch is not taken). -/
structure NormalDraws where
  rootN : ℚ
  svcN : ℚ
  uStatus : ℚ
  j1 : ℤ
  j2 : ℤ
  leafN : ℚ
  rOffN : ℚ
  j3 : ℤ
  rN : ℚ
  payOffN : ℚ
  payN : ℚ
  extN : ℚ
  j4 : ℤ
  notifOffN : ℚ
  notifN : ℚ

def NormalDraws.Valid (d : NormalDraws) : Prop :=
  0 ≤ d.uStatus ∧ d.uStatus < 1 ∧ JitterOK d.j1 ∧ JitterOK d.j2 ∧
  JitterOK d.j3 ∧ JitterOK d.j4

-- ── S1: Slow Checkout (main.go lines 349-414) ───────────────────────

/-- The N+1 query loop of `emitSlowCheckout`: emits `k` sequential
`postgres.query` spans starting at `cursor`, advancing the cursor by the
query duration plus `time.Millisecond` each iteration; returns the emitted
spans and the final cursor. `i` is the loop index (for draw lookup). -/
def slowQueries (region : String) (qMean : ℚ) (qN : ℕ → ℚ) (stmtId : ℕ → ℤ) :
    ℕ → ℕ → ℤ → List SpanData × ℤ
  | 0, _, cursor => ([], cursor)
  | k + 1, i, cursor =>
    let qDur := gaussianDuration qMean 20 (qN i)
    let s : SpanData :=
      { name := "postgres.query", service := "order-service", kind := .client,
        start := cursor, stop := cursor + qDur, status := .unset,
        attrs := dbAttrs "postgres"
          ("SELECT * FROM orders WHERE id = " ++ toString (stmtId i))
          "order-service" region }
    let rest := slowQueries region qMean qN stmtId k (i + 1) (cursor + qDur + 1000000)
    (s :: rest.1, rest.2)

/-- Go `emitSlowCheckout`. -/
def emitSlowCheckout (ts : ℤ) (a : TraceAttrs) (d : SlowDraws) : SpanTree :=
  let rootDur := gaussianDuration 1500 400 d.rootN
  let svcDur := gaussianDuration 1200 350 d.svcN
  let payDur := gaussianDuration 200 50 d.payN
  let svcStart := ts + d.j1
  let cursor0 := svcStart + d.j2
  let nQueries : ℕ := 3 + d.kq
  let qMean : ℚ := ((svcDur / 1000000 : ℤ) : ℚ) / (nQueries : ℚ) * (6/10)
  let q := slowQueries a.region qMean d.qN d.stmtId nQueries 0 cursor0
  let payStart := q.2 + d.j3
  let extDur := gaussianDuration 150 30 d.extN
  let extSpan : SpanData :=
    { name := "external.payment.process", service := "payment-service", kind := .client,
      start := payStart + d.j4, stop := payStart + extDur, status := .unset,
      attrs := paymentAttrs a.region }
  let paySpan : SpanData :=
    { name := "payment-service.charge", service := "payment-service", kind := .client,
      start := payStart, stop := payStart + payDur, status := .unset,
      attrs := paymentAttrs a.region }
  let svcSpan : SpanData :=
    { name := "order-service.handle", service := "order-service", kind := .internal,
      start := svcStart, stop := svcStart + svcDur, status := .unset,
      attrs := svcAttrs "order-service" a }
  let rootSpan : SpanData :=
    { name := a.method ++ " " ++ a.route, service := "api-gateway", kind := .server,
      start := ts, stop := ts + rootDur, status := .ok, attrs := rootAttrs a 200 }
  .node rootSpan
    [.node svcSpan (leafNodes q.1 ++ [.node paySpan [.node extSpan []]])]

-- ── S2: iOS Order Errors (main.go lines 418-441) ────────────────────

/-- Go `emitIOSOrderErrors`. -/
def emitIOSOrderErrors (ts : ℤ) (a : TraceAttrs) (d : IOSDraws) : SpanTree :=
  let rootDur := gaussianDuration 250 60 d.rootN
  let svcDur := gaussianDuration 100 30 d.svcN
  let svcStart := ts + d.j1
  let svcSpan : SpanData :=
    { name := "order-service.handle", service := "order-service", kind := .internal,
      start := svcStart, stop := svcStart + svcDur,
      status := .error "malformed request body", attrs := svcAttrs "order-service" a }
  let rootSpan : SpanData :=
    { name := a.method ++ " " ++ a.route, service := "api-gateway", kind := .server,
      start := ts, stop := ts + rootDur,
      status := .error "malformed request body", attrs := rootAttrs a 500 }
  .node rootSpan [.node svcSpan []]

-- ── S3: Redis Timeout APAC (main.go lines 445-498) ──────────────────

/-- Go `emitRedisTimeoutAPAC`. -/
def emitRedisTimeoutAPAC (ts : ℤ) (a : TraceAttrs) (d : RedisDraws) (svc : String) : SpanTree :=
  let rootDur := gaussianDuration 650 120 d.rootN
  let svcDur := gaussianDuration 580 100 d.svcN
  let svcStart := ts + d.j1
  let leafStart := svcStart + d.j2
  let redisDur := gaussianDuration 550 100 d.redisN
  let redisSpan : SpanData :=
    { name := "redis.get", service := svc, kind := .client,
      start := leafStart, stop := leafStart + redisDur, status := .unset,
      attrs := dbAttrs "redis" ("GET user:session:" ++ a.uid) svc a.region }
  let pgStart := leafStart + redisDur + 1000000
  let pgDur := gaussianDuration 30 10 d.pgN
  let pgSpan : SpanData :=
    { name := "postgres.query", service := svc, kind := .client,
      start := pgStart, stop := pgStart + pgDur, status := .unset,
      attrs := dbAttrs "postgres"
        ("SELECT * FROM users WHERE id = \x27" ++ a.uid ++ "\x27") svc a.region }
  let svcSpan : SpanData :=
    { name := svc ++ ".handle", service := svc, kind := .internal,
      start := svcStart, stop := svcStart + svcDur, status := .unset,
      attrs := svcAttrs svc a }
  let rootSpan : SpanData :=
    { name := a.method ++ " " ++ a.route, service := "api-gateway", kind := .server,
      start := ts, stop := ts + rootDur, status := .ok, attrs := rootAttrs a 200 }
  .node rootSpan [.node svcSpan [.node redisSpan [], .node pgSpan []]]

-- ── S4: Initech Search Failure (main.go lines 502-542) ──────────────

/-- Go `emitInitechSearch`. -/
def emitInitechSearch (ts : ℤ) (a : TraceAttrs) (d : InitechDraws) : SpanTree :=
  let rootDur := gaussianDuration 3000 500 d.rootN
  let svcDur := gaussianDuration 2800 450 d.svcN
  let svcStart := ts + d.j1
  let esStart := svcStart + d.j2
  let esDur := gaussianDuration 2500 400 d.esN
  let esSpan : SpanData :=
    { name := "elasticsearch.search", service := "search-service", kind := .client,
      start := esStart, stop := esStart + esDur,
      status := .error "read tcp: i/o timeout",
      attrs := dbAttrs "elasticsearch"
        "\x7b\"query\":\x7b\"match\":\x7b\"tenant\":\"initech\"\x7d\x7d,\"timeout\":\"2s\"\x7d"
        "search-service" a.region }
  let svcSpan : SpanData :=
    { name := "search-service.handle", service := "search-service", kind := .internal,
      start := svcStart, stop := svcStart + svcDur,
      status := .error "elasticsearch timeout", attrs := svcAttrs "search-service" a }
  let rootSpan : SpanData :=
    { name := a.method ++ " " ++ a.route, service := "api-gateway", kind := .server,
      start := ts, stop := ts + rootDur,
      status := .error "upstream timeout", attrs := rootAttrs a 500 }
  .node rootSpan [.node svcSpan [.node esSpan []]]

-- ── S5: Auth Memory Leak (main.go lines 546-599) ────────────────────

/-- Go `emitAuthMemoryLeak`. The 30% intermittent-503 gate is
`d.u503 < 0.30`. -/
def emitAuthMemoryLeak (ts : ℤ) (a : TraceAttrs) (d : AuthDraws) : SpanTree :=
  let rootDur := gaussianDuration 800 200 d.rootN
  let svcDur := gaussianDuration 700 180 d.svcN
  let fail := d.u503 < 3/10
  let statusCode : ℤ := if fail then 503 else 200
  let svcStart := ts + d.j1
  let redisStart := svcStart + d.j2
  let redisDur := gaussianDuration 600 150 d.redisN
  let redisSpan : SpanData :=
    { name := "redis.get", service := "user-service", kind := .client,
      start := redisStart, stop := redisStart + redisDur, status := .unset,
      attrs := dbAttrs "redis" ("GET auth:token:" ++ a.uid) "user-service" a.region }
  let svcSpan : SpanData :=
    { name := "user-service.handle", service := "user-service", kind := .internal,
      start := svcStart, stop := svcStart + svcDur,
      status := if fail then .error "service unavailable: GC overhead" else .unset,
      attrs := svcAttrs "user-service" a }
  let rootSpan : SpanData :=
    { name := a.method ++ " " ++ a.route, service := "api-gateway", kind := .server,
      start := ts, stop := ts + rootDur,
      status := if fail then .error "service unavailable: GC overhead" else .ok,
      attrs := rootAttrs a statusCode }
  .node rootSpan [.node svcSpan [.node redisSpan []]]

-- ── S6: Payment Provider Timeout (main.go lines 603-667) ────────────

/-- Go `emitPaymentTimeout`. -/
def emitPaymentTimeout (ts : ℤ) (a : TraceAttrs) (d : PayDraws) : SpanTree :=
  let rootDur := gaussianDuration 5000 500 d.rootN
  let svcDur := gaussianDuration 4800 450 d.svcN
  let svcStart := ts + d.j1
  let dbStart := svcStart + d.j2
  let dbDur := gaussianDuration 20 8 d.dbN
  let dbSpan : SpanData :=
    { name := "postgres.query", service := "order-service", kind := .client,
      start := dbStart, stop := dbStart + dbDur, status := .unset,
      attrs := dbAttrs "postgres" "INSERT INTO orders (id, status) VALUES (...)"
        "order-service" a.region }
  let payStart := dbStart + dbDur + d.j3
  let payDur := gaussianDuration 4500 300 d.payN
  let extSpan : SpanData :=
    { name := "external.payment.process", service := "payment-service", kind := .client,
      start := payStart + d.j4, stop := payStart + payDur,
      status := .error "read tcp: i/o timeout", attrs := paymentAttrs a.region }
  let paySpan : SpanData :=
    { name := "payment-service.charge", service := "payment-service", kind := .client,
      start := payStart, stop := payStart + payDur,
      status := .error "context deadline exceeded", attrs := paymentAttrs a.region }
  let svcSpan : SpanData :=
    { name := "order-service.handle", service := "order-service", kind := .internal,
      start := svcStart, stop := svcStart + svcDur,
      status := .error "payment service timeout", attrs := svcAttrs "order-service" a }
  let rootSpan : SpanData :=
    { name := a.method ++ " " ++ a.route, service := "api-gateway", kind := .server,
      start := ts, stop := ts + rootDur,
      status := .error "gateway timeout", attrs := rootAttrs a 504 }
  .node rootSpan [.node svcSpan [.node dbSpan [], .node paySpan [.node extSpan []]]]

-- ── Shared leaf helper (main.go lines 869-896) ──────────────────────

/-- Go `emitNormalLeafSpan`: emits one DB leaf span under the service span
(none when the service has no DB system). -/
def emitNormalLeafSpan (svc dbSys : String) (a : TraceAttrs) (leafStart : ℤ)
    (leafN : ℚ) : List SpanData :=
  if dbSys = "postgres" then
    let leafDur := gaussianDuration 10 5 leafN
    [{ name := "postgres.query", service := svc, kind := .client,
       start := leafStart, stop := leafStart + leafDur, status := .unset,
       attrs := dbAttrs "postgres" ("SELECT * FROM " ++ trimApiRoute a.route)
         svc a.region }]
  else if dbSys = "elasticsearch" then
    let leafDur := gaussianDuration 10 5 leafN
    [{ name := "elasticsearch.search", service := svc, kind := .client,
       start := leafStart, stop := leafStart + leafDur, status := .unset,
       attrs := dbAttrs "elasticsearch" "\x7b\"query\":\x7b\"match_all\":\x7b\x7d\x7d\x7d"
         svc a.region }]
  else []

-- ── S7: Umbrella EU Compliance (main.go lines 671-714) ──────────────

/-- Go `emitUmbrellaCompliance`. -/
def emitUmbrellaCompliance (ts : ℤ) (a : TraceAttrs) (d : UmbrellaDraws) (svc : String) : SpanTree :=
  let overhead := gaussianDuration 150 40 d.overheadN
  let baseDur := gaussianDuration 40 20 d.baseN
  let rootDur := baseDur + overhead
  let statusCode := pickNormalStatusCode d.uStatus
  let svcStart := ts + d.j1
  let compStart := svcStart + d.j2
  let compSpan : SpanData :=
    { name := "compliance.data_residency_check", service := svc, kind := .internal,
      start := compStart, stop := compStart + overhead, status := .unset,
      attrs := [("service.name", .str svc), ("app.tenant_id", .str a.tenant),
                ("host.region", .str a.region)] }
  let dbSys := serviceToDBSystem svc
  let leaf := leafNodes (emitNormalLeafSpan svc dbSys a (compStart + overhead + d.j3) d.leafN)
  let svcSpan : SpanData :=
    { name := svc ++ ".handle", service := svc, kind := .internal,
      start := svcStart, stop := svcStart + (baseDur + overhead), status := .unset,
      attrs := svcAttrs svc a }
  let rootSpan : SpanData :=
    { name := a.method ++ " " ++ a.route, service := "api-gateway", kind := .server,
      start := ts, stop := ts + rootDur, status := .ok, attrs := rootAttrs a statusCode }
  .node rootSpan [.node svcSpan (.node compSpan [] :: leaf)]

-- ── S8: Globex Batch Import (main.go lines 718-756) ─────────────────

/-- Go `emitGlobexBatch`. -/
def emitGlobexBatch (ts : ℤ) (a : TraceAttrs) (d : GlobexDraws) : SpanTree :=
  let rootDur := gaussianDuration 600 120 d.rootN
  let svcDur := gaussianDuration 500 100 d.svcN
  let svcStart := ts + d.j1
  let esStart := svcStart + d.j2
  let esDur := gaussianDuration 450 80 d.esN
  let esSpan : SpanData :=
    { name := "elasticsearch.bulk_index", service := "search-service", kind := .client,
      start := esStart, stop := esStart + esDur, status := .unset,
      attrs := dbAttrs "elasticsearch" "\x7b\"index\":\x7b\"_index\":\"products\"\x7d\x7d"
        "search-service" a.region }
  let svcSpan : SpanData :=
    { name := "search-service.handle", service := "search-service", kind := .internal,
      start := svcStart, stop := svcStart + svcDur, status := .unset,
      attrs := svcAttrs "search-service" a }
  let rootSpan : SpanData :=
    { name := a.method ++ " " ++ a.route, service := "api-gateway", kind := .server,
      start := ts, stop := ts + rootDur, status := .ok, attrs := rootAttrs a 200 }
  .node rootSpan [.node svcSpan [.node esSpan []]]

-- ── Normal trace (main.go lines 760-847) ────────────────────────────

/-- Go `emitNormalTrace`. -/
def emitNormalTrace (ts : ℤ) (a : TraceAttrs) (d : NormalDraws) (svc : String) : SpanTree :=
  let rootDur := gaussianDuration 40 20 d.rootN
  let svcDur := gaussianDuration 25 12 d.svcN
  let statusCode := pickNormalStatusCode d.uStatus
  let svcStart := ts + d.j1
  let dbSys := serviceToDBSystem svc
  let leafStart := svcStart + d.j2
  let leaf := leafNodes (emitNormalLeafSpan svc dbSys a leafStart d.leafN)
  let redisKids : List SpanTree :=
    if svc = "user-service" then
      let rStart := leafStart + gaussianDuration 10 5 d.rOffN + d.j3
      let rDur := gaussianDuration 2 1 d.rN
      [.node { name := "redis.get", service := svc, kind := .client,
               start := rStart, stop := rStart + rDur, status := .unset,
               attrs := dbAttrs "redis" ("GET user:cache:" ++ a.uid) svc a.region } []]
    else []
  let payKids : List SpanTree :=
    if a.route = "/cart/checkout" then
      let payStart := svcStart + gaussianDuration 15 5 d.payOffN
      let payDur := gaussianDuration 10 4 d.payN
      let extDur := gaussianDuration 8 3 d.extN
      let extSpan : SpanData :=
        { name := "external.payment.process", service := "payment-service", kind := .client,
          start := payStart + d.j4, stop := payStart + extDur, status := .unset,
          attrs := paymentAttrs a.region }
      let paySpan : SpanData :=
        { name := "payment-service.charge", service := "payment-service", kind := .client,
          start := payStart, stop := payStart + payDur, status := .unset,
          attrs := paymentAttrs a.region }
      [.node paySpan [.node extSpan []]]
    else []
  let notifKids : List SpanTree :=
    if a.route = "/api/orders" ∧ statusCode < 400 then
      let notifStart := svcStart + gaussianDuration 20 5 d.notifOffN
      let notifDur := gaussianDuration 5 2 d.notifN
      [.node { name := "notification-service.send", service := "notification-service",
               kind := .client, start := notifStart, stop := notifStart + notifDur,
               status := .unset,
               attrs := [("service.name", .str "notification-service"),
                         ("host.region", .str a.region), ("user.id", .str a.uid)] } []]
    else []
  let svcSpan : SpanData :=
    { name := svc ++ ".handle", service := svc, kind := .internal,
      start := svcStart, stop := svcStart + svcDur, status := .unset,
      attrs := svcAttrs svc a }
  let rootSpan : SpanData :=
    { name := a.method ++ " " ++ a.route, service := "api-gateway", kind := .server,
      start := ts, stop := ts + rootDur, status := .ok, attrs := rootAttrs a statusCode }
  .node rootSpan [.node svcSpan (leaf ++ redisKids ++ payKids ++ notifKids)]

-- ── emitTrace dispatch (main.go lines 296-345) ──────────────────────

/-- All random draws one `emitTrace` call may consume, with the attribute
sampling factored out (the caller supplies `a`); `gateU` is the
`detectScenario` gate draw, the rest are the per-builder draw records (only
the record of the chosen builder is consumed). -/
structure EmitDraws where
  gateU : ℚ
  slow : SlowDraws
  ios : IOSDraws
  redis : RedisDraws
  initech : InitechDraws
  auth : AuthDraws
  pay : PayDraws
  umb : UmbrellaDraws
  glx : GlobexDraws
  nrm : NormalDraws

/-- Every draw lies in the range its Go generator can produce. -/
def EmitDraws.Valid (d : EmitDraws) : Prop :=
  0 ≤ d.gateU ∧ d.gateU < 1 ∧ d.slow.Valid ∧ d.ios.Valid ∧ d.redis.Valid ∧
  d.initech.Valid ∧ d.auth.Valid ∧ d.pay.Valid ∧ d.umb.Valid ∧ d.glx.Valid ∧
  d.nrm.Valid

/-- Go `emitTrace` after attribute sampling: classify, then dispatch to the
scenario builder (`svc := routeToService(a.route)` is passed where the Go
code does). -/
def emitTrace (a : TraceAttrs) (ts : ℤ) (d : EmitDraws) : SpanTree :=
  let svc := routeToService a.route
  match detectScenarioOf a d.gateU with
  | .scenarioSlowCheckout => emitSlowCheckout ts a d.slow
  | .scenarioIOSOrderErrors => emitIOSOrderErrors ts a d.ios
  | .scenarioRedisTimeoutAPAC => emitRedisTimeoutAPAC ts a d.redis svc
  | .scenarioInitechSearch => emitInitechSearch ts a d.initech
  | .scenarioAuthMemoryLeak => emitAuthMemoryLeak ts a d.auth
  | .scenarioPaymentTimeout => emitPaymentTimeout ts a d.pay
  | .scenarioUmbrellaCompliance => emitUmbrellaCompliance ts a d.umb svc
  | .scenarioGlobexBatch => emitGlobexBatch ts a d.glx
  | .scenarioNormal => emitNormalTrace ts a d.nrm svc

-- ── Emission scheduler (main.go lines 900-956) ──────────────────────

/-- Backfill trace count, `50/sec * 600 sec` (main.go line 932). -/
def backfillTraceCount : ℕ := 50 * 60 * 10

/-- 10 minutes in nanoseconds. -/
def backfillWindowNs : ℤ := 600 * 1000000000

/-- The timestamps of the backfill loop: `backfillStart + rand.Int63n(10min)` for
each of the `backfillTraceCount` iterations, where
`backfillStart = now - 10min` (`off i` is the i-th `Int63n` draw). -/
def backfillTimestamps (now : ℤ) (off : ℕ → ℤ) : List ℤ :=
  (List.range backfillTraceCount).map (fun i => (now - backfillWindowNs) + off i)

/-- The sequential order of `emitTrace` calls in `main`: the whole backfill
loop first (tagged `true`), then the live ticker loop (tagged `false`, with
whatever wall-clock tick times occur). -/
def mainSchedule (now : ℤ) (off : ℕ → ℤ) (liveTicks : List ℤ) : List (Bool × ℤ) :=
  (backfillTimestamps now off).map (fun t => (true, t)) ++
  liveTicks.map (fun t => (false, t))

-- ── Properties under scrutiny ───────────────────────────────────────

/-- Every direct (parent, child) pair has `parent.start ≤ child.start`. -/
def StartPairsOK (t : SpanTree) : Prop :=
  ∀ pr ∈ t.directPairs, pr.1.start ≤ pr.2.start

/-- Every direct (parent, child) pair has full interval containment. -/
def ContainPairsOK (t : SpanTree) : Prop :=
  ∀ pr ∈ t.directPairs, pr.1.start ≤ pr.2.start ∧ pr.2.stop ≤ pr.1.stop

/-- Every span except the `external.payment.process` ones lasts at least one
millisecond. -/
def DurOK (t : SpanTree) : Prop :=
  ∀ s ∈ t.spans, s.name ≠ "external.payment.process" → 1000000 ≤ s.stop - s.start

/-- The nine stable attribute keys of the downstream consumer contract. -/
def nineKeys : List String :=
  ["http.route", "http.method", "user.id", "app.tenant_id", "host.region",
   "app.build_id", "app.platform", "app.feature_flag", "k8s.pod.name"]

/-- The six attribute-key profiles that actually occur on emitted spans:
root span, service handle span, DB/cache client span,
payment charge / external span, notification span, compliance span. -/
def keyProfiles : List (List String) :=
  [["http.method", "http.route", "user.id", "app.tenant_id", "host.region",
    "app.build_id", "app.platform", "app.feature_flag", "k8s.pod.name",
    "service.name", "http.status_code"],
   ["service.name", "http.route", "host.region", "app.build_id",
    "app.feature_flag", "app.platform", "user.id", "app.tenant_id",
    "k8s.pod.name"],
   ["db.system", "db.statement", "service.name", "host.region"],
   ["service.name", "host.region"],
   ["service.name", "host.region", "user.id"],
   ["service.name", "app.tenant_id", "host.region"]]

/-- The attribute-key list of every span is one of the six fixed profiles. -/
def ProfilesOK (t : SpanTree) : Prop :=
  ∀ s ∈ t.spans, s.attrKeys ∈ keyProfiles

/-- Every span was started on a tracer of the fixed six-service roster. -/
def SvcOK (t : SpanTree) : Prop :=
  ∀ s ∈ t.spans, s.service ∈ serviceNames

/-- Sequential-chain check: each span in the list starts no earlier than the
previous one ends. -/
def chainB : List SpanData → Bool
  | [] => true
  | [_] => true
  | a :: b :: rest => decide (a.stop ≤ b.start) && chainB (b :: rest)

-- ── Concrete sample inputs (for witnesses and counterexamples) ──────

def zeroSlowDraws : SlowDraws :=
  { rootN := 0, svcN := 0, payN := 0, j1 := 0, j2 := 0, kq := 0,
    qN := fun _ => 0, stmtId := fun _ => 0, j3 := 0, extN := 0, j4 := 0 }

def zeroIOSDraws : IOSDraws := { rootN := 0, svcN := 0, j1 := 0 }

def zeroRedisDraws : RedisDraws :=
  { rootN := 0, svcN := 0, j1 := 0, j2 := 0, redisN := 0, pgN := 0 }

def zeroInitechDraws : InitechDraws :=
  { rootN := 0, svcN := 0, j1 := 0, j2 := 0, esN := 0 }

def zeroAuthDraws : AuthDraws :=
  { rootN := 0, svcN := 0, u503 := 0, j1 := 0, j2 := 0, redisN := 0 }

def zeroPayDraws : PayDraws :=
  { rootN := 0, svcN := 0, j1 := 0, j2 := 0, dbN := 0, j3 := 0, payN := 0, j4 := 0 }

def zeroUmbrellaDraws : UmbrellaDraws :=
  { overheadN := 0, baseN := 0, uStatus := 0, j1 := 0, j2 := 0, j3 := 0, leafN := 0 }

def zeroGlobexDraws : GlobexDraws :=
  { rootN := 0, svcN := 0, j1 := 0, j2 := 0, esN := 0 }

def zeroNormalDraws : NormalDraws :=
  { rootN := 0, svcN := 0, uStatus := 0, j1 := 0, j2 := 0, leafN := 0,
    rOffN := 0, j3 := 0, rN := 0, payOffN := 0, payN := 0, extN := 0,
    j4 := 0, notifOffN := 0, notifN := 0 }

def zeroEmitDraws : EmitDraws :=
  { gateU := 0, slow := zeroSlowDraws, ios := zeroIOSDraws, redis := zeroRedisDraws,
    initech := zeroInitechDraws, auth := zeroAuthDraws, pay := zeroPayDraws,
    umb := zeroUmbrellaDraws, glx := zeroGlobexDraws, nrm := zeroNormalDraws }

/-- Attributes that classify as S1 slow-checkout (gate S6 cannot fire:
region is not us-west-2). -/
def attrsSlowA : TraceAttrs :=
  { route := "/cart/checkout", method := "GET", region := "eu-west-1",
    buildID := "build-7a1", platform := "web", featureFlag := "new-checkout-flow",
    tenant := "tenant-acme", uid := "user-0001", pod := "pod-abc-1" }

/-- Attributes that classify as S2 iOS order errors. -/
def attrsIOSA : TraceAttrs :=
  { route := "/api/orders", method := "GET", region := "us-east-1",
    buildID := "build-7a3", platform := "ios", featureFlag := "legacy",
    tenant := "tenant-acme", uid := "user-0002", pod := "pod-abc-2" }

/-- Attributes for S6 payment-timeout (with the gate draw forced true). -/
def attrsPayA : TraceAttrs :=
  { route := "/cart/checkout", method := "POST", region := "us-west-2",
    buildID := "build-7a2", platform := "web", featureFlag := "legacy",
    tenant := "tenant-acme", uid := "user-0003", pod := "pod-abc-3" }

/-- Attributes that classify as the normal scenario with route
`/cart/checkout` (no failure rule matches). -/
def attrsNormalCheckout : TraceAttrs :=
  { route := "/cart/checkout", method := "GET", region := "us-east-1",
    buildID := "build-7a1", platform := "web", featureFlag := "legacy",
    tenant := "tenant-acme", uid := "user-0004", pod := "pod-abc-4" }

/-- Slow-checkout draws where the root duration draw is far below the mean
(clamped to 1ms) while the service span keeps its 1200ms mean, and where the
start jitter of the external span (1.5ms) exceeds its clamped 1ms duration. -/
def slowDrawsA : SlowDraws :=
  { rootN := -100, svcN := 0, payN := 0, j1 := 0, j2 := 0, kq := 0,
    qN := fun _ => 0, stmtId := fun _ => 0, j3 := 0, extN := -10, j4 := 1500000 }

def emitDrawsA : EmitDraws := { zeroEmitDraws with gateU := 1/2, slow := slowDrawsA }

/-- Payment-timeout draws with the root duration draw at -4 standard
deviations (root duration 3000ms, outside 4000-6000ms). -/
def payDrawsB : PayDraws :=
  { rootN := -4, svcN := 0, j1 := 0, j2 := 0, dbN := 0, j3 := 0, payN := 0, j4 := 0 }

def emitDrawsB : EmitDraws := { zeroEmitDraws with pay := payDrawsB }

/-- Normal-trace draws where the DB leaf lasts 5010ms (noise +1000 sigma)
while the payment branch starts 15ms after the start of the service span. -/
def normalDrawsC : NormalDraws := { zeroNormalDraws with leafN := 1000 }

def emitDrawsC : EmitDraws := { zeroEmitDraws with nrm := normalDrawsC }

-- ════════════════════════════════════════════════════════════════════
-- Theorems
-- ════════════════════════════════════════════════════════════════════

-- ── Basic sampler facts ─────────────────────────────────────────────

theorem gaussianDuration_ge (m s n : ℚ) : 1000000 ≤ gaussianDuration m s n := by
  unfold gaussianDuration
  refine Int.le_floor.mpr ?_
  by_cases h : m + n * s < 1
  · rw [if_pos h]; norm_num
  · rw [if_neg h]; push_neg at h; push_cast; nlinarith

theorem gaussianDuration_nonneg (m s n : ℚ) : 0 ≤ gaussianDuration m s n :=
  le_trans (by norm_num) (gaussianDuration_ge m s n)

/-- When the clamp does not fire, the ns duration lies between any integer
bounds enclosing `(mean + noise*stddev) * 1e6`. -/
theorem gaussianDuration_mem (m s n : ℚ) (lo hi : ℤ) (h1 : 1 ≤ m + n * s)
    (hlo : (lo : ℚ) ≤ (m + n * s) * 1000000)
    (hhi : (m + n * s) * 1000000 ≤ (hi : ℚ)) :
    lo ≤ gaussianDuration m s n ∧ gaussianDuration m s n ≤ hi := by
  unfold gaussianDuration
  rw [if_neg (not_lt.mpr h1)]
  refine ⟨Int.le_floor.mpr hlo, ?_⟩
  exact_mod_cast le_trans (Int.floor_le _) hhi

-- ── List plumbing over span trees ───────────────────────────────────

theorem spansAux_append (l₁ l₂ : List SpanTree) :
    spansAux (l₁ ++ l₂) = spansAux l₁ ++ spansAux l₂ := by
  induction l₁ with
  | nil => simp [spansAux]
  | cons t ts ih =>
    obtain ⟨s, cs⟩ := t
    simp [spansAux, ih]

theorem spansAux_leafNodes (l : List SpanData) :
    spansAux (leafNodes l) = l := by
  induction l with
  | nil => simp [spansAux, leafNodes]
  | cons s xs ih => simpa [spansAux, leafNodes] using ih

theorem directPairsAux_append (p : SpanData) (l₁ l₂ : List SpanTree) :
    directPairsAux p (l₁ ++ l₂) = directPairsAux p l₁ ++ directPairsAux p l₂ := by
  induction l₁ with
  | nil => simp [directPairsAux]
  | cons t ts ih =>
    obtain ⟨s, cs⟩ := t
    simp [directPairsAux, ih]

theorem directPairsAux_leafNodes (p : SpanData) (l : List SpanData) :
    directPairsAux p (leafNodes l) = l.map (fun s => (p, s)) := by
  induction l with
  | nil => simp [directPairsAux, leafNodes]
  | cons s xs ih => simpa [directPairsAux, leafNodes] using ih

theorem leafNodes_map_data (l : List SpanData) :
    (leafNodes l).map SpanTree.data = l := by
  induction l with
  | nil => simp [leafNodes]
  | cons s xs ih => simpa [leafNodes, SpanTree.data] using ih

theorem chainB_append_last : ∀ (l : List SpanData) (p : SpanData) (x : ℤ),
    chainB l = true → (∀ s ∈ l, s.stop ≤ x) → x ≤ p.start →
    chainB (l ++ [p]) = true := by
  intro l
  induction l with
  | nil => intro p x _ _ _; simp [chainB]
  | cons a t ih =>
    intro p x hl hstops hp
    cases t with
    | nil =>
      have ha := hstops a (by simp)
      simp [chainB]
      linarith
    | cons b t' =>
      have h1 : a.stop ≤ b.start ∧ chainB (b :: t') = true := by
        simpa [chainB, Bool.and_eq_true] using hl
      have h2 := ih p x h1.2 (fun s hs => hstops s (List.mem_cons_of_mem _ hs)) hp
      simp only [List.cons_append] at h2 ⊢
      simp only [chainB, Bool.and_eq_true, decide_eq_true_eq] at h2 ⊢
      exact ⟨h1.1, h2⟩

-- ── Facts about the N+1 query loop of `emitSlowCheckout` ────────────

theorem slowQueries_facts (region : String) (qMean : ℚ) (qN : ℕ → ℚ)
    (stmtId : ℕ → ℤ) : ∀ (k i : ℕ) (c : ℤ),
    c ≤ (slowQueries region qMean qN stmtId k i c).2 ∧
    (∀ s ∈ (slowQueries region qMean qN stmtId k i c).1,
      c ≤ s.start ∧ 1000000 ≤ s.stop - s.start ∧
      s.stop + 1000000 ≤ (slowQueries region qMean qN stmtId k i c).2 ∧
      s.name = "postgres.query" ∧ s.service = "order-service" ∧
      s.attrKeys = ["db.system", "db.statement", "service.name", "host.region"]) ∧
    chainB (slowQueries region qMean qN stmtId k i c).1 = true ∧
    (∀ s, (slowQueries region qMean qN stmtId k i c).1.head? = some s →
      s.start = c) := by
  intro k
  induction k with
  | zero => intro i c; simp [slowQueries, chainB]
  | succ k ih =>
    intro i c
    obtain ⟨ih1, ih2, ih3, ih4⟩ := ih (i + 1) (c + gaussianDuration qMean 20 (qN i) + 1000000)
    have hge : 1000000 ≤ gaussianDuration qMean 20 (qN i) := gaussianDuration_ge _ _ _
    simp only [slowQueries]
    refine ⟨by linarith, ?_, ?_, ?_⟩
    · intro s hs
      rcases List.mem_cons.mp hs with h | h
      · subst h
        refine ⟨le_refl _, by simpa using hge, by simpa using ih1, rfl, rfl, ?_⟩
        simp [SpanData.attrKeys, dbAttrs]
      · obtain ⟨p1, p2, p3, p4, p5, p6⟩ := ih2 s h
        exact ⟨by linarith, p2, p3, p4, p5, p6⟩
    · cases hrest : (slowQueries region qMean qN stmtId k (i + 1)
        (c + gaussianDuration qMean 20 (qN i) + 1000000)).1 with
      | nil => simp [chainB]
      | cons b t =>
        have hb := ih4 b (by rw [hrest]; rfl)
        rw [hrest] at ih3
        simp only [chainB, Bool.and_eq_true, decide_eq_true_eq]
        refine ⟨?_, ih3⟩
        rw [hb]
        show c + gaussianDuration qMean 20 (qN i) ≤
          c + gaussianDuration qMean 20 (qN i) + 1000000
        linarith
    · intro s hs
      simp only [List.head?] at hs
      injection hs with h
      rw [← h]

-- ── Per-builder property bundles ────────────────────────────────────

theorem emitPaymentTimeout_props (ts : ℤ) (a : TraceAttrs) (d : PayDraws)
    (h : d.Valid) :
    StartPairsOK (emitPaymentTimeout ts a d) ∧ DurOK (emitPaymentTimeout ts a d) ∧
    ProfilesOK (emitPaymentTimeout ts a d) ∧ SvcOK (emitPaymentTimeout ts a d) := by
  obtain ⟨⟨hj1, _⟩, ⟨hj2, _⟩, ⟨hj3, _⟩, ⟨hj4, _⟩⟩ := h
  have hdb := gaussianDuration_ge 20 8 d.dbN
  have hpay := gaussianDuration_ge 4500 300 d.payN
  have hsvcd := gaussianDuration_ge 4800 450 d.svcN
  have hroot := gaussianDuration_ge 5000 500 d.rootN
  refine ⟨?_, ?_, ?_, ?_⟩
  · intro pr hpr
    simp only [emitPaymentTimeout, SpanTree.directPairs, directPairsAux,
      List.mem_cons, List.not_mem_nil, or_false, List.mem_singleton,
      List.append_nil, List.nil_append] at hpr
    rcases hpr with h | h | h | h <;> subst h <;> dsimp only <;> linarith
  · intro s hs
    simp only [emitPaymentTimeout, SpanTree.spans, spansAux, List.mem_cons,
      List.not_mem_nil, or_false, List.append_nil, List.nil_append] at hs
    rcases hs with h | h | h | h | h <;> subst h <;> intro hne
    · dsimp only; linarith
    · dsimp only; linarith
    · dsimp only; linarith
    · dsimp only; linarith
    · exact absurd rfl hne
  · intro s hs
    simp only [emitPaymentTimeout, SpanTree.spans, spansAux, List.mem_cons,
      List.not_mem_nil, or_false, List.append_nil, List.nil_append] at hs
    rcases hs with h | h | h | h | h <;> subst h <;>
      simp [SpanData.attrKeys, keyProfiles, rootAttrs, commonAttrs, svcAttrs,
        dbAttrs, paymentAttrs]
  · intro s hs
    simp only [emitPaymentTimeout, SpanTree.spans, spansAux, List.mem_cons,
      List.not_mem_nil, or_false, List.append_nil, List.nil_append] at hs
    rcases hs with h | h | h | h | h <;> subst h <;> simp [serviceNames]

theorem emitIOSOrderErrors_props (ts : ℤ) (a : TraceAttrs) (d : IOSDraws)
    (h : d.Valid) :
    StartPairsOK (emitIOSOrderErrors ts a d) ∧ DurOK (emitIOSOrderErrors ts a d) ∧
    ProfilesOK (emitIOSOrderErrors ts a d) ∧ SvcOK (emitIOSOrderErrors ts a d) := by
  obtain ⟨hj1, _⟩ := h
  have hroot := gaussianDuration_ge 250 60 d.rootN
  have hsvcd := gaussianDuration_ge 100 30 d.svcN
  refine ⟨?_, ?_, ?_, ?_⟩
  · intro pr hpr
    simp only [emitIOSOrderErrors, SpanTree.directPairs, directPairsAux,
      List.mem_cons, List.not_mem_nil, or_false, List.append_nil, List.nil_append] at hpr
    subst hpr
    dsimp only
    linarith
  · intro s hs
    simp only [emitIOSOrderErrors, SpanTree.spans, spansAux, List.mem_cons,
      List.not_mem_nil, or_false, List.append_nil, List.nil_append] at hs
    rcases hs with h | h <;> subst h <;> intro hne <;> dsimp only <;> linarith
  · intro s hs
    simp only [emitIOSOrderErrors, SpanTree.spans, spansAux, List.mem_cons,
      List.not_mem_nil, or_false, List.append_nil, List.nil_append] at hs
    rcases hs with h | h <;> subst h <;>
      simp [SpanData.attrKeys, keyProfiles, rootAttrs, commonAttrs, svcAttrs]
  · intro s hs
    simp only [emitIOSOrderErrors, SpanTree.spans, spansAux, List.mem_cons,
      List.not_mem_nil, or_false, List.append_nil, List.nil_append] at hs
    rcases hs with h | h <;> subst h <;> simp [serviceNames]

theorem emitRedisTimeoutAPAC_svcOK (ts : ℤ) (a : TraceAttrs) (d : RedisDraws)
    (svc : String) (hsvc : svc ∈ serviceNames) :
    SvcOK (emitRedisTimeoutAPAC ts a d svc) := by
  intro s hs
  simp only [emitRedisTimeoutAPAC, SpanTree.spans, spansAux, List.mem_cons,
    List.not_mem_nil, or_false, List.append_nil, List.nil_append] at hs
  rcases hs with h | h | h | h <;> subst h
  · simp [serviceNames]
  · exact hsvc
  · exact hsvc
  · exact hsvc

theorem emitRedisTimeoutAPAC_props (ts : ℤ) (a : TraceAttrs) (d : RedisDraws)
    (svc : String) (h : d.Valid) :
    StartPairsOK (emitRedisTimeoutAPAC ts a d svc) ∧
    DurOK (emitRedisTimeoutAPAC ts a d svc) ∧
    ProfilesOK (emitRedisTimeoutAPAC ts a d svc) := by
  obtain ⟨⟨hj1, _⟩, ⟨hj2, _⟩⟩ := h
  have hroot := gaussianDuration_ge 650 120 d.rootN
  have hsvcd := gaussianDuration_ge 580 100 d.svcN
  have hred := gaussianDuration_ge 550 100 d.redisN
  have hpg := gaussianDuration_ge 30 10 d.pgN
  refine ⟨?_, ?_, ?_⟩
  · intro pr hpr
    simp only [emitRedisTimeoutAPAC, SpanTree.directPairs, directPairsAux,
      List.mem_cons, List.not_mem_nil, or_false, List.append_nil, List.nil_append] at hpr
    rcases hpr with h | h | h <;> subst h <;> dsimp only <;> linarith
  · intro s hs
    simp only [emitRedisTimeoutAPAC, SpanTree.spans, spansAux, List.mem_cons,
      List.not_mem_nil, or_false, List.append_nil, List.nil_append] at hs
    rcases hs with h | h | h | h <;> subst h <;> intro hne <;> dsimp only <;> linarith
  · intro s hs
    simp only [emitRedisTimeoutAPAC, SpanTree.spans, spansAux, List.mem_cons,
      List.not_mem_nil, or_false, List.append_nil, List.nil_append] at hs
    rcases hs with h | h | h | h <;> subst h <;>
      simp [SpanData.attrKeys, keyProfiles, rootAttrs, commonAttrs, svcAttrs, dbAttrs]

theorem emitInitechSearch_props (ts : ℤ) (a : TraceAttrs) (d : InitechDraws)
    (h : d.Valid) :
    StartPairsOK (emitInitechSearch ts a d) ∧ DurOK (emitInitechSearch ts a d) ∧
    ProfilesOK (emitInitechSearch ts a d) ∧ SvcOK (emitInitechSearch ts a d) := by
  obtain ⟨⟨hj1, _⟩, ⟨hj2, _⟩⟩ := h
  have hroot := gaussianDuration_ge 3000 500 d.rootN
  have hsvcd := gaussianDuration_ge 2800 450 d.svcN
  have hes := gaussianDuration_ge 2500 400 d.esN
  refine ⟨?_, ?_, ?_, ?_⟩
  · intro pr hpr
    simp only [emitInitechSearch, SpanTree.directPairs, directPairsAux,
      List.mem_cons, List.not_mem_nil, or_false, List.append_nil, List.nil_append] at hpr
    rcases hpr with h | h <;> subst h <;> dsimp only <;> linarith
  · intro s hs
    simp only [emitInitechSearch, SpanTree.spans, spansAux, List.mem_cons,
      List.not_mem_nil, or_false, List.append_nil, List.nil_append] at hs
    rcases hs with h | h | h <;> subst h <;> intro hne <;> dsimp only <;> linarith
  · intro s hs
    simp only [emitInitechSearch, SpanTree.spans, spansAux, List.mem_cons,
      List.not_mem_nil, or_false, List.append_nil, List.nil_append] at hs
    rcases hs with h | h | h <;> subst h <;>
      simp [SpanData.attrKeys, keyProfiles, rootAttrs, commonAttrs, svcAttrs, dbAttrs]
  · intro s hs
    simp only [emitInitechSearch, SpanTree.spans, spansAux, List.mem_cons,
      List.not_mem_nil, or_false, List.append_nil, List.nil_append] at hs
    rcases hs with h | h | h <;> subst h <;> simp [serviceNames]

theorem emitAuthMemoryLeak_props (ts : ℤ) (a : TraceAttrs) (d : AuthDraws)
    (h : d.Valid) :
    StartPairsOK (emitAuthMemoryLeak ts a d) ∧ DurOK (emitAuthMemoryLeak ts a d) ∧
    ProfilesOK (emitAuthMemoryLeak ts a d) ∧ SvcOK (emitAuthMemoryLeak ts a d) := by
  obtain ⟨_, _, ⟨hj1, _⟩, ⟨hj2, _⟩⟩ := h
  have hroot := gaussianDuration_ge 800 200 d.rootN
  have hsvcd := gaussianDuration_ge 700 180 d.svcN
  have hred := gaussianDuration_ge 600 150 d.redisN
  refine ⟨?_, ?_, ?_, ?_⟩
  · intro pr hpr
    simp only [emitAuthMemoryLeak, SpanTree.directPairs, directPairsAux,
      List.mem_cons, List.not_mem_nil, or_false, List.append_nil, List.nil_append] at hpr
    rcases hpr with h | h <;> subst h <;> dsimp only <;> linarith
  · intro s hs
    simp only [emitAuthMemoryLeak, SpanTree.spans, spansAux, List.mem_cons,
      List.not_mem_nil, or_false, List.append_nil, List.nil_append] at hs
    rcases hs with h | h | h <;> subst h <;> intro hne <;> dsimp only <;> linarith
  · intro s hs
    simp only [emitAuthMemoryLeak, SpanTree.spans, spansAux, List.mem_cons,
      List.not_mem_nil, or_false, List.append_nil, List.nil_append] at hs
    rcases hs with h | h | h <;> subst h <;>
      simp [SpanData.attrKeys, keyProfiles, rootAttrs, commonAttrs, svcAttrs, dbAttrs]
  · intro s hs
    simp only [emitAuthMemoryLeak, SpanTree.spans, spansAux, List.mem_cons,
      List.not_mem_nil, or_false, List.append_nil, List.nil_append] at hs
    rcases hs with h | h | h <;> subst h <;> simp [serviceNames]

theorem emitGlobexBatch_props (ts : ℤ) (a : TraceAttrs) (d : GlobexDraws)
    (h : d.Valid) :
    StartPairsOK (emitGlobexBatch ts a d) ∧ DurOK (emitGlobexBatch ts a d) ∧
    ProfilesOK (emitGlobexBatch ts a d) ∧ SvcOK (emitGlobexBatch ts a d) := by
  obtain ⟨⟨hj1, _⟩, ⟨hj2, _⟩⟩ := h
  have hroot := gaussianDuration_ge 600 120 d.rootN
  have hsvcd := gaussianDuration_ge 500 100 d.svcN
  have hes := gaussianDuration_ge 450 80 d.esN
  refine ⟨?_, ?_, ?_, ?_⟩
  · intro pr hpr
    simp only [emitGlobexBatch, SpanTree.directPairs, directPairsAux,
      List.mem_cons, List.not_mem_nil, or_false, List.append_nil, List.nil_append] at hpr
    rcases hpr with h | h <;> subst h <;> dsimp only <;> linarith
  · intro s hs
    simp only [emitGlobexBatch, SpanTree.spans, spansAux, List.mem_cons,
      List.not_mem_nil, or_false, List.append_nil, List.nil_append] at hs
    rcases hs with h | h | h <;> subst h <;> intro hne <;> dsimp only <;> linarith
  · intro s hs
    simp only [emitGlobexBatch, SpanTree.spans, spansAux, List.mem_cons,
      List.not_mem_nil, or_false, List.append_nil, List.nil_append] at hs
    rcases hs with h | h | h <;> subst h <;>
      simp [SpanData.attrKeys, keyProfiles, rootAttrs, commonAttrs, svcAttrs, dbAttrs]
  · intro s hs
    simp only [emitGlobexBatch, SpanTree.spans, spansAux, List.mem_cons,
      List.not_mem_nil, or_false, List.append_nil, List.nil_append] at hs
    rcases hs with h | h | h <;> subst h <;> simp [serviceNames]

theorem emitNormalLeafSpan_facts (svc dbSys : String) (a : TraceAttrs)
    (ls : ℤ) (n : ℚ) :
    ∀ s ∈ emitNormalLeafSpan svc dbSys a ls n,
      s.start = ls ∧ s.stop = ls + gaussianDuration 10 5 n ∧ s.service = svc ∧
      s.name ≠ "external.payment.process" ∧
      s.attrKeys = ["db.system", "db.statement", "service.name", "host.region"] := by
  intro s hs
  unfold emitNormalLeafSpan at hs
  split_ifs at hs
  · simp only [List.mem_singleton] at hs
    subst hs
    exact ⟨rfl, rfl, rfl, by simp, by simp [SpanData.attrKeys, dbAttrs]⟩
  · simp only [List.mem_singleton] at hs
    subst hs
    exact ⟨rfl, rfl, rfl, by simp, by simp [SpanData.attrKeys, dbAttrs]⟩
  · simp at hs

theorem emitUmbrellaCompliance_svcOK (ts : ℤ) (a : TraceAttrs) (d : UmbrellaDraws)
    (svc : String) (hsvc : svc ∈ serviceNames) :
    SvcOK (emitUmbrellaCompliance ts a d svc) := by
  have hleaf := emitNormalLeafSpan_facts svc (serviceToDBSystem svc) a
    (ts + d.j1 + d.j2 + gaussianDuration 150 40 d.overheadN + d.j3) d.leafN
  intro s hs
  simp only [emitUmbrellaCompliance, SpanTree.spans, spansAux, spansAux_leafNodes,
    List.mem_cons, List.not_mem_nil, or_false, List.append_nil,
    List.nil_append, List.mem_append] at hs
  rcases hs with h | h | h | h
  · subst h; simp [serviceNames]
  · subst h; exact hsvc
  · subst h; exact hsvc
  · obtain ⟨_, _, f3, _, _⟩ := hleaf s h
    rw [f3]
    exact hsvc

theorem emitUmbrellaCompliance_props (ts : ℤ) (a : TraceAttrs) (d : UmbrellaDraws)
    (svc : String) (h : d.Valid) :
    StartPairsOK (emitUmbrellaCompliance ts a d svc) ∧
    DurOK (emitUmbrellaCompliance ts a d svc) ∧
    ProfilesOK (emitUmbrellaCompliance ts a d svc) := by
  obtain ⟨_, _, ⟨hj1, _⟩, ⟨hj2, _⟩, ⟨hj3, _⟩⟩ := h
  have hov := gaussianDuration_ge 150 40 d.overheadN
  have hbase := gaussianDuration_ge 40 20 d.baseN
  have hleaf := emitNormalLeafSpan_facts svc (serviceToDBSystem svc) a
    (ts + d.j1 + d.j2 + gaussianDuration 150 40 d.overheadN + d.j3) d.leafN
  have hlg := gaussianDuration_ge 10 5 d.leafN
  refine ⟨?_, ?_, ?_⟩
  · intro pr hpr
    simp only [emitUmbrellaCompliance, SpanTree.directPairs, directPairsAux,
      directPairsAux_leafNodes, List.mem_cons, List.not_mem_nil, or_false,
      List.append_nil, List.nil_append, List.mem_append, List.mem_map] at hpr
    rcases hpr with h | h | h
    · subst h; dsimp only; linarith
    · subst h; dsimp only; linarith
    · obtain ⟨x, hx, hxe⟩ := h
      obtain ⟨f1, _, _, _, _⟩ := hleaf x hx
      subst hxe
      dsimp only
      rw [f1]
      linarith
  · intro s hs
    simp only [emitUmbrellaCompliance, SpanTree.spans, spansAux, spansAux_leafNodes,
      List.mem_cons, List.not_mem_nil, or_false, List.append_nil,
      List.nil_append, List.mem_append] at hs
    rcases hs with h | h | h | h
    · subst h; intro _; dsimp only; linarith
    · subst h; intro _; dsimp only; linarith
    · subst h; intro _; dsimp only; linarith
    · obtain ⟨f1, f2, _, _, _⟩ := hleaf s h
      intro _
      rw [f2, f1]
      linarith
  · intro s hs
    simp only [emitUmbrellaCompliance, SpanTree.spans, spansAux, spansAux_leafNodes,
      List.mem_cons, List.not_mem_nil, or_false, List.append_nil,
      List.nil_append, List.mem_append] at hs
    rcases hs with h | h | h | h
    · subst h
      simp [SpanData.attrKeys, keyProfiles, rootAttrs, commonAttrs]
    · subst h
      simp [SpanData.attrKeys, keyProfiles, svcAttrs]
    · subst h
      simp [SpanData.attrKeys, keyProfiles]
    · obtain ⟨_, _, _, _, f5⟩ := hleaf s h
      rw [SpanData.attrKeys] at f5
      simp [SpanData.attrKeys, keyProfiles, f5]

theorem mem_spansAux_ite {c : Prop} [Decidable c] {l : List SpanTree}
    {s : SpanData} (h : s ∈ spansAux (if c then l else [])) :
    c ∧ s ∈ spansAux l := by
  split_ifs at h with hc
  · exact ⟨hc, h⟩
  · simp [spansAux] at h

theorem mem_pairsAux_ite {c : Prop} [Decidable c] {p : SpanData}
    {l : List SpanTree} {pr : SpanData × SpanData}
    (h : pr ∈ directPairsAux p (if c then l else [])) :
    c ∧ pr ∈ directPairsAux p l := by
  split_ifs at h with hc
  · exact ⟨hc, h⟩
  · simp [directPairsAux] at h

theorem emitNormalTrace_svcOK (ts : ℤ) (a : TraceAttrs) (d : NormalDraws)
    (svc : String) (hsvc : svc ∈ serviceNames) :
    SvcOK (emitNormalTrace ts a d svc) := by
  have hleaf := emitNormalLeafSpan_facts svc (serviceToDBSystem svc) a
    (ts + d.j1 + d.j2) d.leafN
  intro s hs
  simp only [emitNormalTrace, SpanTree.spans, spansAux, spansAux_append,
    spansAux_leafNodes, List.mem_cons, List.mem_append, List.not_mem_nil,
    or_false, false_or, List.append_nil, List.nil_append] at hs
  rcases hs with h | h | (((h | h) | h) | h)
  · subst h; simp [serviceNames]
  · subst h; exact hsvc
  · obtain ⟨_, _, f3, _, _⟩ := hleaf s h
    rw [f3]
    exact hsvc
  · obtain ⟨hc, h⟩ := mem_spansAux_ite h
    simp only [spansAux, List.mem_cons, List.not_mem_nil, or_false,
      List.append_nil, List.nil_append] at h
    subst h
    show svc ∈ serviceNames
    exact hsvc
  · obtain ⟨_, h⟩ := mem_spansAux_ite h
    simp only [spansAux, List.mem_cons, List.not_mem_nil, or_false,
      List.append_nil, List.nil_append] at h
    rcases h with h | h <;> subst h <;> simp [serviceNames]
  · obtain ⟨_, h⟩ := mem_spansAux_ite h
    simp only [spansAux, List.mem_cons, List.not_mem_nil, or_false,
      List.append_nil, List.nil_append] at h
    subst h; simp [serviceNames]

theorem emitNormalTrace_props (ts : ℤ) (a : TraceAttrs) (d : NormalDraws)
    (svc : String) (h : d.Valid) :
    StartPairsOK (emitNormalTrace ts a d svc) ∧
    DurOK (emitNormalTrace ts a d svc) ∧
    ProfilesOK (emitNormalTrace ts a d svc) := by
  obtain ⟨_, _, ⟨hj1, _⟩, ⟨hj2, _⟩, ⟨hj3, _⟩, ⟨hj4, _⟩⟩ := h
  have hroot := gaussianDuration_ge 40 20 d.rootN
  have hsvcd := gaussianDuration_ge 25 12 d.svcN
  have hrOff := gaussianDuration_ge 10 5 d.rOffN
  have hr := gaussianDuration_ge 2 1 d.rN
  have hpOff := gaussianDuration_ge 15 5 d.payOffN
  have hp := gaussianDuration_ge 10 4 d.payN
  have hnOff := gaussianDuration_ge 20 5 d.notifOffN
  have hn := gaussianDuration_ge 5 2 d.notifN
  have hleaf := emitNormalLeafSpan_facts svc (serviceToDBSystem svc) a
    (ts + d.j1 + d.j2) d.leafN
  have hlg := gaussianDuration_ge 10 5 d.leafN
  refine ⟨?_, ?_, ?_⟩
  · intro pr hpr
    simp only [emitNormalTrace, SpanTree.directPairs, directPairsAux,
      directPairsAux_append, directPairsAux_leafNodes, List.mem_cons,
      List.mem_append, List.mem_map, List.not_mem_nil, or_false, false_or,
      List.append_nil, List.nil_append] at hpr
    rcases hpr with h | (((h | h) | h) | h)
    · subst h; dsimp only; linarith
    · obtain ⟨x, hx, hxe⟩ := h
      obtain ⟨f1, _, _, _, _⟩ := hleaf x hx
      subst hxe
      dsimp only
      rw [f1]
      linarith
    · obtain ⟨_, h⟩ := mem_pairsAux_ite h
      simp only [directPairsAux, List.mem_cons, List.not_mem_nil, or_false,
        List.append_nil, List.nil_append] at h
      subst h; dsimp only; linarith
    · obtain ⟨_, h⟩ := mem_pairsAux_ite h
      simp only [directPairsAux, List.mem_cons, List.not_mem_nil, or_false,
        List.append_nil, List.nil_append] at h
      rcases h with h | h <;> subst h <;> dsimp only <;> linarith
    · obtain ⟨_, h⟩ := mem_pairsAux_ite h
      simp only [directPairsAux, List.mem_cons, List.not_mem_nil, or_false,
        List.append_nil, List.nil_append] at h
      subst h; dsimp only; linarith
  · intro s hs
    simp only [emitNormalTrace, SpanTree.spans, spansAux, spansAux_append,
      spansAux_leafNodes, List.mem_cons, List.mem_append, List.not_mem_nil,
      or_false, false_or, List.append_nil, List.nil_append] at hs
    rcases hs with h | h | (((h | h) | h) | h)
    · subst h; intro _; dsimp only; linarith
    · subst h; intro _; dsimp only; linarith
    · obtain ⟨f1, f2, _, _, _⟩ := hleaf s h
      intro _
      rw [f2, f1]
      linarith
    · obtain ⟨_, h⟩ := mem_spansAux_ite h
      simp only [spansAux, List.mem_cons, List.not_mem_nil, or_false,
        List.append_nil, List.nil_append] at h
      subst h; intro _; dsimp only; linarith
    · obtain ⟨_, h⟩ := mem_spansAux_ite h
      simp only [spansAux, List.mem_cons, List.not_mem_nil, or_false,
        List.append_nil, List.nil_append] at h
      rcases h with h | h <;> subst h <;> intro hne
      · dsimp only; linarith
      · exact absurd rfl hne
    · obtain ⟨_, h⟩ := mem_spansAux_ite h
      simp only [spansAux, List.mem_cons, List.not_mem_nil, or_false,
        List.append_nil, List.nil_append] at h
      subst h; intro _; dsimp only; linarith
  · intro s hs
    simp only [emitNormalTrace, SpanTree.spans, spansAux, spansAux_append,
      spansAux_leafNodes, List.mem_cons, List.mem_append, List.not_mem_nil,
      or_false, false_or, List.append_nil, List.nil_append] at hs
    rcases hs with h | h | (((h | h) | h) | h)
    · subst h
      simp [SpanData.attrKeys, keyProfiles, rootAttrs, commonAttrs]
    · subst h
      simp [SpanData.attrKeys, keyProfiles, svcAttrs]
    · obtain ⟨_, _, _, _, f5⟩ := hleaf s h
      rw [SpanData.attrKeys] at f5
      simp [SpanData.attrKeys, keyProfiles, f5]
    · obtain ⟨_, h⟩ := mem_spansAux_ite h
      simp only [spansAux, List.mem_cons, List.not_mem_nil, or_false,
        List.append_nil, List.nil_append] at h
      subst h
      simp [SpanData.attrKeys, keyProfiles, dbAttrs]
    · obtain ⟨_, h⟩ := mem_spansAux_ite h
      simp only [spansAux, List.mem_cons, List.not_mem_nil, or_false,
        List.append_nil, List.nil_append] at h
      rcases h with h | h <;> subst h <;>
        simp [SpanData.attrKeys, keyProfiles, paymentAttrs]
    · obtain ⟨_, h⟩ := mem_spansAux_ite h
      simp only [spansAux, List.mem_cons, List.not_mem_nil, or_false,
        List.append_nil, List.nil_append] at h
      subst h
      simp [SpanData.attrKeys, keyProfiles]

theorem emitSlowCheckout_props (ts : ℤ) (a : TraceAttrs) (d : SlowDraws)
    (h : d.Valid) :
    StartPairsOK (emitSlowCheckout ts a d) ∧ DurOK (emitSlowCheckout ts a d) ∧
    ProfilesOK (emitSlowCheckout ts a d) ∧ SvcOK (emitSlowCheckout ts a d) := by
  obtain ⟨⟨hj1, _⟩, ⟨hj2, _⟩, _, ⟨hj3, _⟩, ⟨hj4, _⟩⟩ := h
  have hroot := gaussianDuration_ge 1500 400 d.rootN
  have hsvcd := gaussianDuration_ge 1200 350 d.svcN
  have hpay := gaussianDuration_ge 200 50 d.payN
  have hext := gaussianDuration_ge 150 30 d.extN
  obtain ⟨hq1, hq2, hq3, hq4⟩ := slowQueries_facts a.region
    (((gaussianDuration 1200 350 d.svcN / 1000000 : ℤ) : ℚ) / ((3 + d.kq : ℕ) : ℚ) * (6/10))
    d.qN d.stmtId (3 + d.kq) 0 (ts + d.j1 + d.j2)
  refine ⟨?_, ?_, ?_, ?_⟩
  · intro pr hpr
    simp only [emitSlowCheckout, SpanTree.directPairs, directPairsAux,
      directPairsAux_append, directPairsAux_leafNodes, List.mem_cons,
      List.mem_append, List.mem_map, List.not_mem_nil, or_false, false_or,
      List.append_nil, List.nil_append] at hpr
    rcases hpr with h | h | h | h
    · subst h; dsimp only; linarith
    · obtain ⟨x, hx, hxe⟩ := h
      obtain ⟨f1, _, _, _, _, _⟩ := hq2 x hx
      subst hxe
      dsimp only
      linarith
    · subst h; dsimp only; linarith
    · subst h; dsimp only; linarith
  · intro s hs
    simp only [emitSlowCheckout, SpanTree.spans, spansAux, spansAux_append,
      spansAux_leafNodes, List.mem_cons, List.mem_append, List.not_mem_nil,
      or_false, false_or, List.append_nil, List.nil_append] at hs
    rcases hs with h | h | h | h | h
    · subst h; intro _; dsimp only; linarith
    · subst h; intro _; dsimp only; linarith
    · obtain ⟨_, f2, _, _, _, _⟩ := hq2 s h
      intro _
      linarith
    · subst h; intro _; dsimp only; linarith
    · subst h; intro hne; exact absurd rfl hne
  · intro s hs
    simp only [emitSlowCheckout, SpanTree.spans, spansAux, spansAux_append,
      spansAux_leafNodes, List.mem_cons, List.mem_append, List.not_mem_nil,
      or_false, false_or, List.append_nil, List.nil_append] at hs
    rcases hs with h | h | h | h | h
    · subst h
      simp [SpanData.attrKeys, keyProfiles, rootAttrs, commonAttrs]
    · subst h
      simp [SpanData.attrKeys, keyProfiles, svcAttrs]
    · obtain ⟨_, _, _, _, _, f6⟩ := hq2 s h
      rw [SpanData.attrKeys] at f6
      simp [SpanData.attrKeys, keyProfiles, f6]
    · subst h
      simp [SpanData.attrKeys, keyProfiles, paymentAttrs]
    · subst h
      simp [SpanData.attrKeys, keyProfiles, paymentAttrs]
  · intro s hs
    simp only [emitSlowCheckout, SpanTree.spans, spansAux, spansAux_append,
      spansAux_leafNodes, List.mem_cons, List.mem_append, List.not_mem_nil,
      or_false, false_or, List.append_nil, List.nil_append] at hs
    rcases hs with h | h | h | h | h
    · subst h; simp [serviceNames]
    · subst h; simp [serviceNames]
    · obtain ⟨_, _, _, _, f5, _⟩ := hq2 s h
      rw [f5]
      simp [serviceNames]
    · subst h; simp [serviceNames]
    · subst h; simp [serviceNames]

-- ── Weighted-sampler lemmas (for C5) ────────────────────────────────

theorem totalWeight_foldl : ∀ (l : List weightedChoice) (acc : ℚ),
    l.foldl (fun a c => a + c.weight) acc = acc + (l.map (·.weight)).sum := by
  intro l
  induction l with
  | nil => intro acc; simp
  | cons c t ih =>
    intro acc
    simp only [List.foldl_cons, List.map_cons, List.sum_cons]
    rw [ih]
    ring

theorem totalWeight_eq (l : List weightedChoice) :
    totalWeight l = (l.map (·.weight)).sum := by
  unfold totalWeight
  rw [totalWeight_foldl]
  ring

theorem pickWeightedLoop_skip_zeros : ∀ (pre : List weightedChoice) (r : ℚ)
    (rest : List weightedChoice), 0 < r → (∀ c ∈ pre, c.weight = 0) →
    pickWeightedLoop r (pre ++ rest) = pickWeightedLoop r rest := by
  intro pre
  induction pre with
  | nil => intro r rest _ _; simp
  | cons c t ih =>
    intro r rest hr hz
    have hc : c.weight = 0 := hz c (by simp)
    simp only [List.cons_append, pickWeightedLoop, hc, sub_zero]
    rw [if_neg (by linarith)]
    exact ih r rest hr (fun x hx => hz x (List.mem_cons_of_mem _ hx))

-- ── C8: classification depends on attributes and the gate only ──────

/-- C8: with the rule-1 probabilistic gate outcome held fixed,
classification is deterministic: the scenario computed by `detectScenario`
depends only on the attribute tuple and on which side of the 30% threshold
the gate draw falls — two runs with the same attributes and the same gate
outcome yield the same scenario, so the gate is the only source of
randomness in classification. -/
theorem detectScenario_deterministic_given_gate (a : TraceAttrs) (u₁ u₂ : ℚ)
    (hg : u₁ < 3/10 ↔ u₂ < 3/10) :
    detectScenarioOf a u₁ = detectScenarioOf a u₂ := by
  simp only [detectScenarioOf]
  by_cases hc : a.route = "/cart/checkout" ∧ a.region = "us-west-2" ∧ u₁ < 3/10
  · have hc2 : a.route = "/cart/checkout" ∧ a.region = "us-west-2" ∧ u₂ < 3/10 :=
      ⟨hc.1, hc.2.1, hg.mp hc.2.2⟩
    rw [if_pos hc, if_pos hc2]
  · have hc2 : ¬(a.route = "/cart/checkout" ∧ a.region = "us-west-2" ∧ u₂ < 3/10) :=
      fun h => hc ⟨h.1, h.2.1, hg.mpr h.2.2⟩
    rw [if_neg hc, if_neg hc2]

/-- Witness for C8 at concrete inputs: both draws 0 and 1/5 are on the
"true" side of the 30% gate, and classification agrees. -/
theorem detectScenario_deterministic_given_gate_witness :
    (((0 : ℚ) < 3/10) ↔ ((1/5 : ℚ) < 3/10)) ∧
    detectScenarioOf attrsIOSA 0 = detectScenarioOf attrsIOSA (1/5) :=
  ⟨by norm_num, detectScenario_deterministic_given_gate attrsIOSA 0 (1/5) (by norm_num)⟩

-- ── C5: weighted sampling with a single 100%-weight entry ───────────

/-- C5 counterexample: in the pool `[("a",0),("b",1)]` the entry `"b"` holds
100% of the total weight, yet the draw `r = 0` (i.e. `u = 0`, which
`rand.Float64` can produce, and `0 ∈ [0, totalWeight)`) returns `"a"`: the
loop returns the first entry whose running remainder is `≤ 0`, and a
zero-weight entry ahead of the heavy one absorbs the draw `0`. -/
theorem pickWeighted_full_weight_counterexample :
    totalWeight [⟨"a", 0⟩, ⟨"b", 1⟩] = 1 ∧
    pickWeighted [⟨"a", 0⟩, ⟨"b", 1⟩] 0 = "a" ∧
    pickWeighted [⟨"a", 0⟩, ⟨"b", 1⟩] 0 ≠ "b" := by
  have h : pickWeighted [⟨"a", 0⟩, ⟨"b", 1⟩] 0 = "a" := by
    norm_num [pickWeighted, pickWeightedLoop, totalWeight]
  refine ⟨by norm_num [totalWeight], h, ?_⟩
  rw [h]
  decide

/-- C5 (amended): for every weighted pool in which one entry holds 100% of
the total weight (all other entries have weight 0), the sampler returns that
entry for every *strictly positive* draw, i.e. whenever the uniform draw
`u ∈ (0,1)`; at `u = 0` the loop instead returns the first list entry. -/
theorem pickWeighted_full_weight (pre post : List weightedChoice) (v : String)
    (w : ℚ) (u : ℚ) (hpre : ∀ c ∈ pre, c.weight = 0)
    (hpost : ∀ c ∈ post, c.weight = 0) (hw : 0 < w) (hu : 0 < u) (hu1 : u < 1) :
    pickWeighted (pre ++ ⟨v, w⟩ :: post) u = v := by
  have htot : totalWeight (pre ++ ⟨v, w⟩ :: post) = w := by
    rw [totalWeight_eq]
    simp only [List.map_append, List.map_cons, List.sum_append, List.sum_cons]
    have h1 : (pre.map (·.weight)).sum = 0 :=
      List.sum_eq_zero (by intro x hx; obtain ⟨c, hc, rfl⟩ := List.mem_map.mp hx; exact hpre c hc)
    have h2 : (post.map (·.weight)).sum = 0 :=
      List.sum_eq_zero (by intro x hx; obtain ⟨c, hc, rfl⟩ := List.mem_map.mp hx; exact hpost c hc)
    rw [h1, h2]
    ring
  unfold pickWeighted
  rw [htot]
  rw [pickWeightedLoop_skip_zeros pre (u * w) _ (by positivity) hpre]
  have hsel : u * w - w ≤ 0 := by nlinarith
  simp only [pickWeightedLoop]
  rw [if_pos hsel]

/-- Witness for C5 (amended) at a concrete pool and draw. -/
theorem pickWeighted_full_weight_witness :
    pickWeighted [⟨"a", 0⟩, ⟨"b", 1⟩] (1/2) = "b" :=
  pickWeighted_full_weight [⟨"a", 0⟩] [] "b" 1 (1/2)
    (by intro c hc; simp at hc; rw [hc]) (by intro c hc; simp at hc)
    (by norm_num) (by norm_num) (by norm_num)

-- ── C6: backfill count, window, and phase ordering ──────────────────

/-- C6: the backfill loop emits exactly `rate * windowSeconds`
(= 50*60*10 = 30000) requests, each with a timestamp in
`[now - 10min, now)`, and in the sequential order of `emitTrace` calls of
`main` the first 30000 calls are exactly the backfill ones: every backfill
emission precedes every live-tick emission (the phases never interleave). -/
theorem backfill_count_window_order (now : ℤ) (off : ℕ → ℤ) (live : List ℤ)
    (hoff : ∀ i, 0 ≤ off i ∧ off i < backfillWindowNs) :
    (backfillTimestamps now off).length = 30000 ∧
    (∀ t ∈ backfillTimestamps now off, now - backfillWindowNs ≤ t ∧ t < now) ∧
    (∀ (i : ℕ) (h : i < (mainSchedule now off live).length),
      (((mainSchedule now off live).get ⟨i, h⟩).1 = true ↔ i < backfillTraceCount)) := by
  refine ⟨?_, ?_, ?_⟩
  · simp [backfillTimestamps, backfillTraceCount]
  · intro t ht
    simp only [backfillTimestamps, List.mem_map, List.mem_range] at ht
    obtain ⟨i, _, rfl⟩ := ht
    have h := hoff i
    constructor <;> linarith [h.1, h.2]
  · intro i h
    have hlen : (backfillTimestamps now off).length = backfillTraceCount := by
      simp [backfillTimestamps]
    rw [List.get_eq_getElem]
    simp only [mainSchedule, List.getElem_append, List.length_map, hlen]
    by_cases hi : i < backfillTraceCount
    · rw [dif_pos hi]
      simp [hi, List.getElem_map]
    · rw [dif_neg hi]
      simp [hi, List.getElem_map]

/-- Witness for C6 at concrete inputs. -/
theorem backfill_count_window_order_witness :
    ((0 : ℤ) ≤ 0 ∧ (0 : ℤ) < backfillWindowNs) ∧
    (backfillTimestamps 0 (fun _ => 0)).length = 30000 :=
  ⟨⟨le_refl 0, by norm_num [backfillWindowNs]⟩,
   (backfill_count_window_order 0 (fun _ => 0) [7]
     (fun _ => ⟨le_refl 0, by norm_num [backfillWindowNs]⟩)).1⟩

-- ── C3: iOS order errors scenario ───────────────────────────────────

/-- C3: any attribute tuple with route `/api/orders`, platform `ios` and
build `build-7a3` classifies as iOS-order-errors regardless of all other
attribute values and of the gate draw, and the emitted trace has root HTTP
status 500 with both the gateway (root) span and the order-service span in
error status. -/
theorem ios_order_errors_classified (a : TraceAttrs) (ts : ℤ) (d : EmitDraws)
    (h1 : a.route = "/api/orders") (h2 : a.platform = "ios")
    (h3 : a.buildID = "build-7a3") :
    detectScenarioOf a d.gateU = .scenarioIOSOrderErrors ∧
    (emitTrace a ts d).data.attrValue "http.status_code" = some (.int 500) ∧
    (emitTrace a ts d).data.service = "api-gateway" ∧
    (emitTrace a ts d).data.status.isError = true ∧
    (emitTrace a ts d).kids.map (fun c => (c.data.service, c.data.status.isError)) =
      [("order-service", true)] := by
  have hdet : detectScenarioOf a d.gateU = .scenarioIOSOrderErrors := by
    simp [detectScenarioOf, h1, h2, h3]
  refine ⟨hdet, ?_, ?_, ?_, ?_⟩ <;>
    simp [emitTrace, hdet, emitIOSOrderErrors, SpanTree.data, SpanTree.kids,
      SpanData.attrValue, rootAttrs, commonAttrs, SpanStatus.isError]

/-- Witness for C3 at a concrete attribute tuple and draw record. -/
theorem ios_order_errors_classified_witness :
    attrsIOSA.route = "/api/orders" ∧ attrsIOSA.platform = "ios" ∧
    attrsIOSA.buildID = "build-7a3" ∧
    detectScenarioOf attrsIOSA zeroEmitDraws.gateU = .scenarioIOSOrderErrors :=
  ⟨rfl, rfl, rfl, (ios_order_errors_classified attrsIOSA 0 zeroEmitDraws rfl rfl rfl).1⟩

-- ── C4: payment-timeout scenario ────────────────────────────────────

/-- C4 (amended): any tuple with route `/cart/checkout` and region
`us-west-2` whose gate draw is below the 30% threshold classifies as
payment-timeout, and the builder emits a root span with error status and
HTTP 504 whose duration is exactly `gaussianDuration 5000 500` of the root
draw; that duration lies in the 4000-6000ms range when the normal draw is
within two standard deviations (not for all draws). -/
theorem payment_timeout_classified (a : TraceAttrs) (ts : ℤ) (d : EmitDraws)
    (h1 : a.route = "/cart/checkout") (h2 : a.region = "us-west-2")
    (hg : d.gateU < 3/10) :
    detectScenarioOf a d.gateU = .scenarioPaymentTimeout ∧
    (emitTrace a ts d).data.status.isError = true ∧
    (emitTrace a ts d).data.attrValue "http.status_code" = some (.int 504) ∧
    (emitTrace a ts d).data.stop - (emitTrace a ts d).data.start =
      gaussianDuration 5000 500 d.pay.rootN ∧
    (-2 ≤ d.pay.rootN → d.pay.rootN ≤ 2 →
      4000000000 ≤ gaussianDuration 5000 500 d.pay.rootN ∧
      gaussianDuration 5000 500 d.pay.rootN ≤ 6000000000) := by
  have hdet : detectScenarioOf a d.gateU = .scenarioPaymentTimeout := by
    simp [detectScenarioOf, h1, h2, hg]
  refine ⟨hdet, ?_, ?_, ?_, ?_⟩
  · simp [emitTrace, hdet, emitPaymentTimeout, SpanTree.data, SpanStatus.isError]
  · simp [emitTrace, hdet, emitPaymentTimeout, SpanTree.data, SpanData.attrValue,
      rootAttrs, commonAttrs]
  · simp only [emitTrace, hdet, emitPaymentTimeout, SpanTree.data]
    ring
  · intro hlo hhi
    refine gaussianDuration_mem 5000 500 d.pay.rootN 4000000000 6000000000
      (by linarith) ?_ ?_
    · push_cast
      linarith
    · push_cast
      linarith

/-- Witness for C4 at a concrete attribute tuple and draw record. -/
theorem payment_timeout_classified_witness :
    attrsPayA.route = "/cart/checkout" ∧ attrsPayA.region = "us-west-2" ∧
    zeroEmitDraws.gateU < 3/10 ∧
    detectScenarioOf attrsPayA zeroEmitDraws.gateU = .scenarioPaymentTimeout :=
  ⟨rfl, rfl, by norm_num [zeroEmitDraws],
   (payment_timeout_classified attrsPayA 0 zeroEmitDraws rfl rfl
     (by norm_num [zeroEmitDraws])).1⟩

/-- C4 counterexample: with the gate forced true and the root duration draw
at -4 standard deviations, the total duration of the root span is 3000ms, outside
the claimed 4000-6000ms range — the range does not hold for all draws of the
duration sampler. -/
theorem payment_timeout_duration_counterexample :
    detectScenarioOf attrsPayA emitDrawsB.gateU = .scenarioPaymentTimeout ∧
    (emitTrace attrsPayA 0 emitDrawsB).data.stop -
      (emitTrace attrsPayA 0 emitDrawsB).data.start = 3000000000 ∧
    ¬(4000000000 ≤ (emitTrace attrsPayA 0 emitDrawsB).data.stop -
      (emitTrace attrsPayA 0 emitDrawsB).data.start) := by
  have hdet0 : detectScenarioOf attrsPayA 0 = .scenarioPaymentTimeout := by
    norm_num [detectScenarioOf, attrsPayA]
  have hdet : detectScenarioOf attrsPayA emitDrawsB.gateU = .scenarioPaymentTimeout := by
    norm_num [emitDrawsB, zeroEmitDraws, hdet0]
  have hdur : (emitTrace attrsPayA 0 emitDrawsB).data.stop -
      (emitTrace attrsPayA 0 emitDrawsB).data.start = 3000000000 := by
    norm_num [emitTrace, hdet0, emitPaymentTimeout, SpanTree.data, emitDrawsB,
      zeroEmitDraws, payDrawsB, gaussianDuration]
  refine ⟨hdet, hdur, ?_⟩
  rw [hdur]
  norm_num

-- ── Root span attributes across all builders ────────────────────────

theorem emitTrace_root_attrs (a : TraceAttrs) (ts : ℤ) (d : EmitDraws) :
    ∃ code : ℤ, (emitTrace a ts d).data.attrs = rootAttrs a code := by
  simp only [emitTrace]
  split <;> exact ⟨_, rfl⟩

theorem nineKeys_in_rootAttrs (a : TraceAttrs) (code : ℤ) :
    ∀ k ∈ nineKeys, k ∈ (rootAttrs a code).map (·.1) := by
  intro k hk
  simp only [nineKeys, List.mem_cons, List.not_mem_nil, or_false] at hk
  rcases hk with rfl | rfl | rfl | rfl | rfl | rfl | rfl | rfl | rfl <;>
    simp [rootAttrs, commonAttrs]

theorem keyProfiles_service_region :
    ∀ ks ∈ keyProfiles, "service.name" ∈ ks ∧ "host.region" ∈ ks := by decide

theorem keyProfiles_db :
    ∀ ks ∈ keyProfiles, "db.system" ∈ ks → "db.statement" ∈ ks := by decide

-- ── C1: parent/child interval containment ───────────────────────────

/-- C1 counterexample: at concrete slow-checkout draws (root duration drawn
far below its mean and clamped to 1ms, service duration at its 1200ms mean)
the emitted tree has a direct (parent, child) pair whose child interval ends
after the parent interval ends — full containment does not hold for all
random draws. -/
theorem parent_child_containment_counterexample :
    ∃ pr ∈ (emitTrace attrsSlowA 0 emitDrawsA).directPairs,
      pr.1.stop < pr.2.stop := by
  have h : ((emitTrace attrsSlowA 0 emitDrawsA).directPairs.any
      (fun pr => decide (pr.1.stop < pr.2.stop))) = true := by
    norm_num [emitTrace, attrsSlowA, emitDrawsA, zeroEmitDraws, zeroSlowDraws,
      slowDrawsA, detectScenarioOf, routeToService, emitSlowCheckout, slowQueries,
      gaussianDuration, SpanTree.directPairs, directPairsAux, leafNodes,
      List.any, dbAttrs, paymentAttrs, svcAttrs, rootAttrs, commonAttrs]
  obtain ⟨pr, hm, hp⟩ := List.any_eq_true.mp h
  exact ⟨pr, hm, of_decide_eq_true hp⟩

/-- C1 (amended): for every scenario builder, every emitted span tree and all
random draws, every direct (parent, child) span pair satisfies
`parent.start ≤ child.start`; the second half of the containment claim
(`child.stop ≤ parent.stop`) does not hold for all draws (see the
counterexample) because the duration of each span is sampled independently. -/
theorem emitTrace_child_starts_after_parent (a : TraceAttrs) (ts : ℤ)
    (d : EmitDraws) (h : d.Valid) : StartPairsOK (emitTrace a ts d) := by
  obtain ⟨_, _, hslow, hios, hredis, hini, hauth, hpayv, humb, hglx, hnrm⟩ := h
  simp only [emitTrace]
  split
  · exact (emitSlowCheckout_props _ _ _ hslow).1
  · exact (emitIOSOrderErrors_props _ _ _ hios).1
  · exact (emitRedisTimeoutAPAC_props _ _ _ _ hredis).1
  · exact (emitInitechSearch_props _ _ _ hini).1
  · exact (emitAuthMemoryLeak_props _ _ _ hauth).1
  · exact (emitPaymentTimeout_props _ _ _ hpayv).1
  · exact (emitUmbrellaCompliance_props _ _ _ _ humb).1
  · exact (emitGlobexBatch_props _ _ _ hglx).1
  · exact (emitNormalTrace_props _ _ _ _ hnrm).1

theorem zeroEmitDraws_valid : zeroEmitDraws.Valid := by
  refine ⟨?_, ?_, ?_, ?_, ?_, ?_, ?_, ?_, ?_, ?_, ?_⟩ <;>
    norm_num [zeroSlowDraws, zeroIOSDraws, zeroRedisDraws, zeroInitechDraws,
      zeroAuthDraws, zeroPayDraws, zeroUmbrellaDraws, zeroGlobexDraws,
      zeroNormalDraws, SlowDraws.Valid, IOSDraws.Valid, RedisDraws.Valid,
      InitechDraws.Valid, AuthDraws.Valid, PayDraws.Valid, UmbrellaDraws.Valid,
      GlobexDraws.Valid, NormalDraws.Valid, JitterOK, zeroEmitDraws]

/-- Witness for C1 (amended) at concrete inputs. -/
theorem emitTrace_child_starts_after_parent_witness :
    zeroEmitDraws.Valid ∧ StartPairsOK (emitTrace attrsIOSA 0 zeroEmitDraws) :=
  ⟨zeroEmitDraws_valid,
   emitTrace_child_starts_after_parent attrsIOSA 0 zeroEmitDraws zeroEmitDraws_valid⟩

-- ── C2: strictly positive span durations ────────────────────────────

/-- C2: evaluation at the failing input.  All `gaussianDuration` samples are
clamped to at least 1ms, but the `external.payment.process` span is started
at the payment cursor plus jitter while its end is anchored at the payment
cursor plus the sampled duration; with the external duration draw clamped to
1ms and a 1.5ms start jitter, the emitted span has strictly negative
duration — contradicting the claim that no builder can produce a
zero/negative-duration span. -/
theorem negative_duration_span_at_failing_input :
    ∃ s ∈ (emitTrace attrsSlowA 0 emitDrawsA).spans,
      s.name = "external.payment.process" ∧ s.stop - s.start < 0 := by
  have h : ((emitTrace attrsSlowA 0 emitDrawsA).spans.any
      (fun s => s.name == "external.payment.process" &&
        decide (s.stop - s.start < 0))) = true := by
    norm_num [emitTrace, attrsSlowA, emitDrawsA, zeroEmitDraws, zeroSlowDraws,
      slowDrawsA, detectScenarioOf, routeToService, emitSlowCheckout, slowQueries,
      gaussianDuration, SpanTree.spans, spansAux, leafNodes, List.any, dbAttrs,
      paymentAttrs, svcAttrs, rootAttrs, commonAttrs]
  obtain ⟨s, hm, hp⟩ := List.any_eq_true.mp h
  simp only [Bool.and_eq_true, beq_iff_eq, decide_eq_true_eq] at hp
  exact ⟨s, hm, hp⟩

-- ── C9: stable attribute keys ───────────────────────────────────────

/-- C9 counterexample: not every span carries the full nine-key set — a
`postgres.query` span of the slow-checkout tree does not carry `http.route`. -/
theorem attr_keys_counterexample :
    ∃ s ∈ (emitTrace attrsSlowA 0 emitDrawsA).spans,
      "http.route" ∉ s.attrKeys := by
  have h : ((emitTrace attrsSlowA 0 emitDrawsA).spans.any
      (fun s => decide ("http.route" ∉ s.attrKeys))) = true := by
    norm_num [emitTrace, attrsSlowA, emitDrawsA, zeroEmitDraws, zeroSlowDraws,
      slowDrawsA, detectScenarioOf, routeToService, emitSlowCheckout, slowQueries,
      gaussianDuration, SpanTree.spans, spansAux, leafNodes, List.any, dbAttrs,
      paymentAttrs, svcAttrs, rootAttrs, commonAttrs, SpanData.attrKeys]
    decide
  obtain ⟨s, hm, hp⟩ := List.any_eq_true.mp h
  exact ⟨s, hm, of_decide_eq_true hp⟩

/-- C9 (amended): for every scenario and all draws, the root gateway span
carries all nine stable keys (plus `service.name` and `http.status_code`);
the key list of every emitted span is one of six fixed profiles; every span
carries `service.name` and `host.region`; and every database-call span that
carries `db.system` also carries `db.statement`.  Downstream spans do not
all carry the full nine-key set (see the counterexample). -/
theorem emitTrace_attr_key_profiles (a : TraceAttrs) (ts : ℤ) (d : EmitDraws)
    (h : d.Valid) :
    (∀ k ∈ nineKeys, k ∈ (emitTrace a ts d).data.attrKeys) ∧
    (∀ s ∈ (emitTrace a ts d).spans, s.attrKeys ∈ keyProfiles) ∧
    (∀ s ∈ (emitTrace a ts d).spans,
      "service.name" ∈ s.attrKeys ∧ "host.region" ∈ s.attrKeys) ∧
    (∀ s ∈ (emitTrace a ts d).spans,
      "db.system" ∈ s.attrKeys → "db.statement" ∈ s.attrKeys) := by
  have hprof : ∀ s ∈ (emitTrace a ts d).spans, s.attrKeys ∈ keyProfiles := by
    obtain ⟨_, _, hslow, hios, hredis, hini, hauth, hpayv, humb, hglx, hnrm⟩ := h
    simp only [emitTrace]
    split
    · exact (emitSlowCheckout_props _ _ _ hslow).2.2.1
    · exact (emitIOSOrderErrors_props _ _ _ hios).2.2.1
    · exact (emitRedisTimeoutAPAC_props _ _ _ _ hredis).2.2
    · exact (emitInitechSearch_props _ _ _ hini).2.2.1
    · exact (emitAuthMemoryLeak_props _ _ _ hauth).2.2.1
    · exact (emitPaymentTimeout_props _ _ _ hpayv).2.2.1
    · exact (emitUmbrellaCompliance_props _ _ _ _ humb).2.2
    · exact (emitGlobexBatch_props _ _ _ hglx).2.2.1
    · exact (emitNormalTrace_props _ _ _ _ hnrm).2.2
  refine ⟨?_, hprof, ?_, ?_⟩
  · obtain ⟨code, hc⟩ := emitTrace_root_attrs a ts d
    simp only [SpanData.attrKeys, hc]
    exact nineKeys_in_rootAttrs a code
  · intro s hs
    exact keyProfiles_service_region _ (hprof s hs)
  · intro s hs
    exact keyProfiles_db _ (hprof s hs)

/-- Witness for C9 (amended) at concrete inputs. -/
theorem emitTrace_attr_key_profiles_witness :
    zeroEmitDraws.Valid ∧
    (∀ s ∈ (emitTrace attrsIOSA 0 zeroEmitDraws).spans, s.attrKeys ∈ keyProfiles) :=
  ⟨zeroEmitDraws_valid,
   (emitTrace_attr_key_profiles attrsIOSA 0 zeroEmitDraws zeroEmitDraws_valid).2.1⟩

-- ── C10: route-to-service mapping and the six-service roster ────────

/-- C10: every route in the configured pool is mapped by `routeToService` to
one of order-service, user-service or search-service (the unknown-service
branch is unreachable for sampled routes), and every span of every emitted
tree is started on a tracer from the fixed six-service roster, so every
tracer lookup succeeds. -/
theorem routeToService_roster (a : TraceAttrs) (ts : ℤ) (d : EmitDraws)
    (h : d.Valid) (hroute : a.route ∈ routes.map weightedChoice.value) :
    routeToService a.route ∈ ["order-service", "user-service", "search-service"] ∧
    (∀ c ∈ routes, routeToService c.value ∈
      ["order-service", "user-service", "search-service"]) ∧
    (∀ n ∈ ["order-service", "user-service", "search-service"], n ∈ serviceNames) ∧
    SvcOK (emitTrace a ts d) := by
  have hall : ∀ c ∈ routes, routeToService c.value ∈
      ["order-service", "user-service", "search-service"] := by decide
  have h3 : routeToService a.route ∈
      ["order-service", "user-service", "search-service"] := by
    obtain ⟨c, hc, hrfl⟩ := List.mem_map.mp hroute
    rw [← hrfl]
    exact hall c hc
  have hsvc : routeToService a.route ∈ serviceNames := by
    simp only [List.mem_cons, List.not_mem_nil, or_false] at h3
    rcases h3 with hh | hh | hh <;> rw [hh] <;> simp [serviceNames]
  refine ⟨h3, hall, by decide, ?_⟩
  obtain ⟨_, _, hslow, hios, hredis, hini, hauth, hpayv, humb, hglx, hnrm⟩ := h
  simp only [emitTrace]
  split
  · exact (emitSlowCheckout_props _ _ _ hslow).2.2.2
  · exact (emitIOSOrderErrors_props _ _ _ hios).2.2.2
  · exact emitRedisTimeoutAPAC_svcOK _ _ _ _ hsvc
  · exact (emitInitechSearch_props _ _ _ hini).2.2.2
  · exact (emitAuthMemoryLeak_props _ _ _ hauth).2.2.2
  · exact (emitPaymentTimeout_props _ _ _ hpayv).2.2.2
  · exact emitUmbrellaCompliance_svcOK _ _ _ _ hsvc
  · exact (emitGlobexBatch_props _ _ _ hglx).2.2.2
  · exact emitNormalTrace_svcOK _ _ _ _ hsvc

/-- Witness for C10 at concrete inputs. -/
theorem routeToService_roster_witness :
    zeroEmitDraws.Valid ∧
    attrsIOSA.route ∈ routes.map weightedChoice.value ∧
    routeToService attrsIOSA.route ∈
      ["order-service", "user-service", "search-service"] :=
  ⟨zeroEmitDraws_valid, by decide,
   (routeToService_roster attrsIOSA 0 zeroEmitDraws zeroEmitDraws_valid
     (by decide)).1⟩

-- ── C7: sibling cursor chaining ─────────────────────────────────────

/-- C7 counterexample: in the normal-trace builder (route `/cart/checkout`,
classification normal) with the DB leaf duration drawn large (5010ms), the
payment sibling starts 15ms after the start of the service span — before the
previous child span has ended — so the start of the next sibling is *not*
computed from the end of the previous child plus jitter in every builder; the
normal builder derives the payment and notification branch starts from the
start of the parent plus a sampled offset. -/
theorem sibling_start_counterexample :
    ∃ x y : ℤ,
      ((subtreeAt (emitTrace attrsNormalCheckout 0 emitDrawsC) [0, 0]).map
        (fun t => t.data.stop)) = some x ∧
      ((subtreeAt (emitTrace attrsNormalCheckout 0 emitDrawsC) [0, 1]).map
        (fun t => t.data.start)) = some y ∧ y < x := by
  refine ⟨5010000000, 15000000, ?_, ?_, by norm_num⟩ <;>
    norm_num [emitTrace, detectScenarioOf, attrsNormalCheckout, emitDrawsC,
      zeroEmitDraws, normalDrawsC, zeroNormalDraws, emitNormalTrace, subtreeAt,
      SpanTree.kids, SpanTree.data, routeToService, serviceToDBSystem,
      emitNormalLeafSpan, leafNodes, gaussianDuration, List.get?,
      pickNormalStatusCode]

/-- C7 (amended): the cursor discipline (each next sibling starts no earlier
than the end of the previous child) holds for the slow-checkout N+1 query chain
(gap: 1ms, then jitter before the payment call), the redis-APAC
cache-then-fallback pair, the payment-timeout db-then-payment pair, and the
umbrella compliance-then-leaf pair; in the normal builder, by contrast, the
start of the payment branch is computed from the start of the service (parent) span
plus a sampled offset, not from the end of the previous child. -/
theorem sibling_cursor_chaining (ts : ℤ) (a : TraceAttrs) (d : EmitDraws)
    (svc : String) (h : d.Valid) :
    (∃ l, childSpansAt (emitSlowCheckout ts a d.slow) [0] = some l ∧
      chainB l = true) ∧
    (∃ l, childSpansAt (emitRedisTimeoutAPAC ts a d.redis svc) [0] = some l ∧
      chainB l = true) ∧
    (∃ l, childSpansAt (emitPaymentTimeout ts a d.pay) [0] = some l ∧
      chainB l = true) ∧
    (∃ l, childSpansAt (emitUmbrellaCompliance ts a d.umb svc) [0] = some l ∧
      chainB l = true) ∧
    (a.route = "/cart/checkout" → svc = "order-service" →
      ∃ x, (subtreeAt (emitNormalTrace ts a d.nrm svc) [0, 1]).map
        (fun t => t.data.start) = some x ∧
        x = ts + d.nrm.j1 + gaussianDuration 15 5 d.nrm.payOffN) := by
  obtain ⟨_, _, hslow, _, _, _, _, hpayv, humb, _, _⟩ := h
  refine ⟨?_, ?_, ?_, ?_, ?_⟩
  · obtain ⟨_, _, _, ⟨hj3, _⟩, _⟩ := hslow
    obtain ⟨hq1, hq2, hq3, hq4⟩ := slowQueries_facts a.region
      (((gaussianDuration 1200 350 d.slow.svcN / 1000000 : ℤ) : ℚ) /
        ((3 + d.slow.kq : ℕ) : ℚ) * (6/10))
      d.slow.qN d.slow.stmtId (3 + d.slow.kq) 0 (ts + d.slow.j1 + d.slow.j2)
    refine ⟨_, rfl, ?_⟩
    simp only [SpanTree.kids]
    rw [List.map_append, leafNodes_map_data]
    simp only [List.map_cons, List.map_nil, SpanTree.data]
    refine chainB_append_last _ _ ((slowQueries a.region
      (((gaussianDuration 1200 350 d.slow.svcN / 1000000 : ℤ) : ℚ) /
        ((3 + d.slow.kq : ℕ) : ℚ) * (6/10))
      d.slow.qN d.slow.stmtId (3 + d.slow.kq) 0 (ts + d.slow.j1 + d.slow.j2)).2)
      hq3 ?_ ?_
    · intro s hs
      have hf := (hq2 s hs).2.2.1
      linarith
    · dsimp only
      linarith
  · have hred := gaussianDuration_ge 550 100 d.redis.redisN
    refine ⟨_, rfl, ?_⟩
    simp only [SpanTree.kids, List.map_cons, List.map_nil, SpanTree.data, chainB,
      Bool.and_eq_true, decide_eq_true_eq]
    refine ⟨?_, trivial⟩
    dsimp only
    linarith
  · obtain ⟨_, _, ⟨hj3, _⟩, _⟩ := hpayv
    have hdb := gaussianDuration_ge 20 8 d.pay.dbN
    refine ⟨_, rfl, ?_⟩
    simp only [SpanTree.kids, List.map_cons, List.map_nil, SpanTree.data, chainB,
      Bool.and_eq_true, decide_eq_true_eq]
    refine ⟨?_, trivial⟩
    dsimp only
    linarith
  · obtain ⟨_, _, _, _, ⟨hj3, _⟩⟩ := humb
    have hov := gaussianDuration_ge 150 40 d.umb.overheadN
    refine ⟨_, rfl, ?_⟩
    simp only [emitNormalLeafSpan]
    split_ifs
    · simp only [SpanTree.kids, leafNodes, List.map_cons, List.map_nil,
        SpanTree.data, chainB, Bool.and_eq_true, decide_eq_true_eq]
      refine ⟨?_, trivial⟩
      dsimp only
      linarith
    · simp only [SpanTree.kids, leafNodes, List.map_cons, List.map_nil,
        SpanTree.data, chainB, Bool.and_eq_true, decide_eq_true_eq]
      refine ⟨?_, trivial⟩
      dsimp only
      linarith
    · simp [SpanTree.kids, leafNodes, chainB]
  · intro hroute hsvc
    subst hsvc
    refine ⟨ts + d.nrm.j1 + gaussianDuration 15 5 d.nrm.payOffN, ?_, rfl⟩
    simp [emitNormalTrace, subtreeAt, SpanTree.kids, SpanTree.data, hroute,
      serviceToDBSystem, emitNormalLeafSpan, leafNodes, List.get?]

/-- Witness for C7 (amended) at concrete inputs. -/
theorem sibling_cursor_chaining_witness :
    zeroEmitDraws.Valid ∧
    (∃ l, childSpansAt (emitPaymentTimeout 0 attrsPayA zeroEmitDraws.pay) [0] =
      some l ∧ chainB l = true) :=
  ⟨zeroEmitDraws_valid,
   (sibling_cursor_chaining 0 attrsPayA zeroEmitDraws "order-service"
     zeroEmitDraws_valid).2.2.1⟩

end TraceGen
